import Mathlib

/-!
# Midas driver (`src/Midas/src/c-compiler/vale.cpp`)

A shallow embedding of the compiler driver: the construction of the internal
struct layouts and of the runtime intrinsic table, the phase orchestration of
`compileValeCode`, the entry-point synthesis, and the backend pipeline
(`createMachine`, `generateOutput`, `generateModule`, `setup`, `main`).

Conventions of the embedding

* The C++ code mutates a `GlobalState` and calls into the LLVM C API and into
  the struct / interface / edge / function translators.  Here a procedure is a
  function from a `World` (the `ValeOptions` object, the `GlobalState`, and the
  chronological list of calls issued so far) to a `Res`: either it returns, or
  the process halts (a failed `assert`, or `exit`).
* LLVM types and values are first-order terms; an instruction is the value it
  defines, as in LLVM.
* `program->structs`, `program->interfaces` and `program->functions` are maps
  keyed by name; they are represented by their entries in iteration order.
* `assert` is the `<assert.h>` macro with assertions enabled.
* `globalState->opt` points to the one `ValeOptions` object of `main`; it is the
  `opt` component of the world.
* The translators of `struct/struct.h`, `struct/interface.h` and
  `function/function.h` are outside this file: a call to one of them is recorded
  and returns. The loader (lines 171-176 of `compileValeCode`) is an input of the
  embedding: it yields the `Program`, or stops the process.
* Constants, helpers and LLVM outcomes that `vale.cpp` takes from elsewhere are the
  fields of `Env`.
-/

namespace Vale

/-! ## LLVM handles -/

/-- LLVM types, as built by the `LLVM*Type` constructors used in the driver. -/
inductive LLVMTypeRef where
  | void
  | int1
  | int8
  | int64
  | pointer (elementType : LLVMTypeRef) (addressSpace : Nat)
  | array (elementType : LLVMTypeRef) (elementCount : Nat)
  | function (returnType : LLVMTypeRef) (paramTypes : List LLVMTypeRef) (isVarArg : Bool)
  | namedStruct (name : String)
  | struct (name : String) (elementTypes : List LLVMTypeRef) (packed : Bool)
  deriving Repr, Inhabited

def LLVMVoidType : LLVMTypeRef := .void

def LLVMInt1Type : LLVMTypeRef := .int1

def LLVMInt8Type : LLVMTypeRef := .int8

def LLVMInt64Type : LLVMTypeRef := .int64

def LLVMPointerType (elementType : LLVMTypeRef) (addressSpace : Nat) : LLVMTypeRef :=
  .pointer elementType addressSpace

def LLVMArrayType (elementType : LLVMTypeRef) (elementCount : Nat) : LLVMTypeRef :=
  .array elementType elementCount

def LLVMFunctionType (returnType : LLVMTypeRef) (paramTypes : List LLVMTypeRef)
    (isVarArg : Bool) : LLVMTypeRef :=
  .function returnType paramTypes isVarArg

/-- The call `LLVMStructCreateNamed`: a named struct type whose body is not set yet. -/
def LLVMStructCreateNamed (name : String) : LLVMTypeRef := .namedStruct name

/-- The call `LLVMStructSetBody`: gives a named struct its element types. -/
def LLVMStructSetBody (structTy : LLVMTypeRef) (elementTypes : List LLVMTypeRef)
    (packed : Bool) : LLVMTypeRef :=
  match structTy with
  | .namedStruct name => .struct name elementTypes packed
  | .struct name _ _ => .struct name elementTypes packed
  | t => t

/-- Element types of a struct type (`none` when the type has no body). -/
def LLVMTypeRef.structElementTypes : LLVMTypeRef → Option (List LLVMTypeRef)
  | .struct _ elementTypes _ => some elementTypes
  | _ => none

/-- Return type of a function type. -/
def LLVMTypeRef.getReturnType : LLVMTypeRef → Option LLVMTypeRef
  | .function returnType _ _ => some returnType
  | _ => none

/-- Parameter types of a function type. -/
def LLVMTypeRef.getParamTypes : LLVMTypeRef → Option (List LLVMTypeRef)
  | .function _ paramTypes _ => some paramTypes
  | _ => none

structure LLVMModuleRef where
  moduleID : String
  deriving Repr, DecidableEq, Inhabited

structure LLVMTargetRef where
  triple : String
  deriving Repr, DecidableEq, Inhabited

inductive LLVMCodeGenOptLevel where
  | LLVMCodeGenLevelNone
  | LLVMCodeGenLevelAggressive
  deriving Repr, DecidableEq, Inhabited

inductive LLVMRelocMode where
  | LLVMRelocDefault
  | LLVMRelocPIC
  deriving Repr, DecidableEq, Inhabited

structure LLVMTargetMachineRef where
  target : LLVMTargetRef
  triple : String
  cpu : String
  features : String
  level : LLVMCodeGenOptLevel
  reloc : LLVMRelocMode
  deriving Repr, DecidableEq, Inhabited

/-! ## The program model (`metal/ast.h`) -/

structure Name where
  name : String
  deriving Repr, DecidableEq, Inhabited

structure Prototype where
  name : Name
  params : List String
  returnType : String
  deriving Repr, DecidableEq, Inhabited

structure Function where
  prototype : Prototype
  block : String
  deriving Repr, DecidableEq, Inhabited

structure Edge where
  structName : String
  interfaceName : String
  structPrototypesByInterfaceMethod : List (Prototype × Prototype)
  deriving Repr, DecidableEq, Inhabited

structure StructDefinition where
  name : String
  members : List (String × String)
  edges : List Edge
  deriving Repr, DecidableEq, Inhabited

structure InterfaceDefinition where
  name : String
  methods : List Prototype
  deriving Repr, DecidableEq, Inhabited

/-- The three name-keyed maps of a program, each as its entries in iteration order. -/
structure Program where
  structs : List (String × StructDefinition)
  interfaces : List (String × InterfaceDefinition)
  functions : List (String × Function)
  deriving Repr, DecidableEq, Inhabited

/-! ## LLVM values -/

/-- LLVM values that the driver creates or receives. -/
inductive LLVMValueRef where
  | constInt (ty : LLVMTypeRef) (n : Nat) (signExtend : Bool)
  | function (mod : LLVMModuleRef) (name : String) (ty : LLVMTypeRef)
  | global (mod : LLVMModuleRef) (name : String) (ty : LLVMTypeRef)
  | declared (function : Function)
  | call (fn : LLVMValueRef) (args : List LLVMValueRef) (name : String)
  | load (pointer : LLVMValueRef) (name : String)
  | ret (v : LLVMValueRef)
  deriving Repr, Inhabited

def LLVMConstInt (ty : LLVMTypeRef) (n : Nat) (signExtend : Bool) : LLVMValueRef :=
  .constInt ty n signExtend

structure LLVMBasicBlockRef where
  parent : LLVMValueRef
  name : String
  deriving Repr, Inhabited

/-- A builder, identified by the basic block at whose end it is positioned. -/
structure LLVMBuilderRef where
  block : LLVMBasicBlockRef
  deriving Repr, Inhabited

/-! ## Options, exit codes, process state -/

structure ValeOptions where
  srcpath : String
  srcDir : String
  srcNameNoExt : String
  srcDirAndNameNoExt : String
  output : String
  triple : Option String
  cpu : Option String
  features : Option String
  pic : Bool
  library : Bool
  release : Bool
  wasm : Bool
  verify : Bool
  print_llvmir : Bool
  print_asm : Bool
  deriving Repr, DecidableEq, Inhabited

/-- Modelled from the spec: the enumeration `ExitCode` of `error.h`, which is not
part of the sources at hand. The spec lists "distinct codes for bad options,
backend/target-machine setup failure, verification failure, and success"; the
enumerator names are the ones `vale.cpp` uses. -/
inductive ExitCode where
  | Success
  | BadOpts
  | LlvmSetupFailed
  | VerifyFailed
  deriving Repr, DecidableEq, Inhabited

/-- The ways the process stops before `main` returns. -/
inductive Halt where
  | assertFailed (expr : String)
  | exit (status : ExitCode)
  | llvmAbort
  | loadFailed
  deriving Repr, DecidableEq, Inhabited

inductive LLVMCodeGenFileType where
  | LLVMAssemblyFile
  | LLVMObjectFile
  deriving Repr, DecidableEq, Inhabited

/-- The optimisation passes the driver can add to the pass manager. -/
inductive Pass where
  | PromoteMemoryToRegister
  | InstructionCombining
  | Reassociate
  | GVN
  | CFGSimplification
  | FunctionInlining
  deriving Repr, DecidableEq, Inhabited

/-- Calls issued by the driver, in the order of the source text: the calls into
the struct / interface / edge / function translators, the LLVM C API calls that
act on the module, the builder, the pass manager or the file system, and console
output. -/
inductive Event where
  | declareStruct (structM : StructDefinition)
  | declareInterface (interfaceM : InterfaceDefinition)
  | translateStruct (structM : StructDefinition)
  | translateInterface (interfaceM : InterfaceDefinition)
  | declareEdge (e : Edge)
  | declareFunction (function : Function)
  | translateEdge (e : Edge)
  | translateFunction (function : Function)
  | LLVMAddFunction (mod : LLVMModuleRef) (name : String) (functionTy : LLVMTypeRef)
  | LLVMSetLinkage (global : LLVMValueRef) (linkage : String)
  | LLVMSetDLLStorageClass (global : LLVMValueRef) (cls : String)
  | LLVMSetFunctionCallConv (fn : LLVMValueRef) (cc : String)
  | LLVMCreateBuilder
  | LLVMAppendBasicBlock (fn : LLVMValueRef) (name : String)
  | LLVMPositionBuilderAtEnd (block : LLVMBasicBlockRef)
  | LLVMAddGlobal (mod : LLVMModuleRef) (ty : LLVMTypeRef) (name : String)
  | LLVMSetInitializer (global : LLVMValueRef) (constantVal : LLVMValueRef)
  | LLVMBuild (builder : LLVMBuilderRef) (instruction : LLVMValueRef)
  | LLVMDisposeBuilder (builder : LLVMBuilderRef)
  | LLVMModuleCreateWithNameInContext (moduleID : String)
  | LLVMCreateDIBuilder (mod : LLVMModuleRef)
  | LLVMDIBuilderCreateFile (filename : String) (directory : String)
  | LLVMDIBuilderCreateCompileUnit (producer : String)
  | LLVMDIBuilderFinalize
  | LLVMInitializeX86 (component : String)
  | LLVMDisposeMessage
  | LLVMPrintModuleToFile (mod : LLVMModuleRef) (filename : String)
  | LLVMVerifyModule (mod : LLVMModuleRef)
  | LLVMCreatePassManager
  | LLVMAddPass (pass : Pass)
  | LLVMRunPassManager (mod : LLVMModuleRef)
  | LLVMDisposePassManager
  | LLVMSetTarget (mod : LLVMModuleRef) (triple : Option String)
  | LLVMSetDataLayout (mod : LLVMModuleRef) (machine : LLVMTargetMachineRef)
  | LLVMTargetMachineEmitToFile (machine : LLVMTargetMachineRef) (mod : LLVMModuleRef)
      (filename : String) (codegen : LLVMCodeGenFileType)
  | LLVMDisposeModule (mod : LLVMModuleRef)
  | LLVMDisposeTargetMachine (machine : Option LLVMTargetMachineRef)
  | errorExit (exitcode : ExitCode) (msg : String)
  | cout (s : String)
  | cerr (s : String)
  deriving Repr, Inhabited

/-- The fields of `GlobalState` that the driver reads or writes. -/
structure GlobalState where
  mod : LLVMModuleRef
  machine : Option LLVMTargetMachineRef
  dataLayout : Option LLVMTargetMachineRef
  ptrSize : Nat
  program : Program
  stringConstantBuilder : LLVMBuilderRef
  liveHeapObjCounter : LLVMValueRef
  objIdCounter : LLVMValueRef
  controlBlockTypeStrIndex : Nat
  controlBlockObjIdIndex : Nat
  controlBlockRcMemberIndex : Nat
  controlBlockWrciMemberIndex : Nat
  weakableControlBlockStructL : LLVMTypeRef
  nonWeakableControlBlockStructL : LLVMTypeRef
  stringInnerStructL : LLVMTypeRef
  stringWrapperStructL : LLVMTypeRef
  malloc : LLVMValueRef
  free : LLVMValueRef
  exit : LLVMValueRef
  assert : LLVMValueRef
  assertI64Eq : LLVMValueRef
  flareI64 : LLVMValueRef
  printCStr : LLVMValueRef
  getch : LLVMValueRef
  printInt : LLVMValueRef
  printBool : LLVMValueRef
  initStr : LLVMValueRef
  addStr : LLVMValueRef
  eqStr : LLVMValueRef
  printVStr : LLVMValueRef
  intToCStr : LLVMValueRef
  strlen : LLVMValueRef
  censusContains : LLVMValueRef
  censusAdd : LLVMValueRef
  censusRemove : LLVMValueRef
  allocWrc : LLVMValueRef
  incrementWrc : LLVMValueRef
  decrementWrc : LLVMValueRef
  wrcIsLive : LLVMValueRef
  markWrcDead : LLVMValueRef
  getNumWrcs : LLVMValueRef
  deriving Repr, Inhabited

/-- What the driver takes from outside `vale.cpp`: constants and helpers declared in
headers that are not at hand, and the outcome of the calls whose result the driver
branches on. -/
structure Env where
  /-- The macro `CONTROL_BLOCK_STRUCT_NAME`. -/
  CONTROL_BLOCK_STRUCT_NAME : String
  /-- The helper `fileMakePath (dir, name, ext)`. -/
  fileMakePath : String → String → String → String
  /-- The helper `fileDirectory`. -/
  fileDirectory : String → String
  /-- The helper `getFileNameNoExt`. -/
  getFileNameNoExt : String → String
  /-- The helper `valeOptSet`: its return value, the options it fills in, and the
  arguments left. -/
  valeOptSet : ValeOptions → List String → Int × ValeOptions × List String
  /-- Lines 171-176 of `compileValeCode`: the file at the given path is read, asserted
  non-empty, parsed as JSON and turned into a `Program` by `readProgram`; `none` when
  one of these steps stops the process. -/
  readProgram : String → Option Program
  /-- The value of `LLVMPointerSize` for the data layout of a machine. -/
  LLVMPointerSize : LLVMTargetMachineRef → Nat
  LLVMGetDefaultTargetTriple : String
  /-- The call `LLVMGetTargetFromTriple`: the target, or the error message. -/
  LLVMGetTargetFromTriple : String → Except String LLVMTargetRef
  /-- The call `LLVMCreateTargetMachine`: `false` when it returns a null machine. -/
  LLVMCreateTargetMachine : LLVMTargetMachineRef → Bool
  /-- Error message of the first `LLVMPrintModuleToFile` call, when it fails. -/
  printModulePre : Option String
  /-- Error message of the second `LLVMPrintModuleToFile` call, when it fails. -/
  printModulePost : Option String
  /-- The call `LLVMVerifyModule` with `LLVMAbortProcessAction`: `none` when LLVM aborts the
  process, otherwise the value left in `error` (`none` for a null pointer). -/
  verifyModule : Option (Option String)
  /-- Error message of the assembly emission, when it fails. -/
  emitAsm : Option String
  /-- Error message of the object emission, when it fails. -/
  emitObj : Option String

/-- The mutable state of the process, and the calls issued so far. -/
structure World where
  opt : ValeOptions
  globalState : GlobalState
  trace : List Event
  deriving Inhabited

/-- Result of running a procedure: it returns a value, or the process halts. -/
inductive Res (α : Type) where
  | ok (a : α) (w : World)
  | halt (h : Halt) (w : World)

def Res.world {α : Type} : Res α → World
  | .ok _ w => w
  | .halt _ w => w

def Res.trace {α : Type} (r : Res α) : List Event := r.world.trace

def Res.halted {α : Type} : Res α → Option Halt
  | .ok _ _ => none
  | .halt h _ => some h

def Res.returned {α : Type} : Res α → Bool
  | .ok _ _ => true
  | .halt _ _ => false

/-- A procedure of the driver. -/
def Proc (α : Type) : Type := World → Res α

def Proc.pure {α : Type} (a : α) : Proc α := fun w => .ok a w

def Proc.bind {α β : Type} (m : Proc α) (f : α → Proc β) : Proc β := fun w =>
  match m w with
  | .ok a w1 => f a w1
  | .halt h w1 => .halt h w1

instance : Monad Proc where
  pure := Proc.pure
  bind := Proc.bind

/-- Records a call. -/
def emit (e : Event) : Proc Unit := fun w =>
  .ok () { w with trace := w.trace ++ [e] }

def getGlobalState : Proc GlobalState := fun w => .ok w.globalState w

def setGlobalState (f : GlobalState → GlobalState) : Proc Unit := fun w =>
  .ok () { w with globalState := f w.globalState }

def getOpt : Proc ValeOptions := fun w => .ok w.opt w

def setOpt (f : ValeOptions → ValeOptions) : Proc Unit := fun w =>
  .ok () { w with opt := f w.opt }

def halt {α : Type} (h : Halt) : Proc α := fun w => .halt h w

/-- The `assert` macro of `<assert.h>`. -/
def assert (cond : Bool) (expr : String) : Proc Unit :=
  if cond then Proc.pure () else halt (.assertFailed expr)

/-- A range-based `for` loop over the elements of a container. -/
def forEach {α : Type} : List α → (α → Proc Unit) → Proc Unit
  | [], _ => Proc.pure ()
  | x :: xs, body => Proc.bind (body x) (fun _ => forEach xs body)

/-! ## `initInternalStructs` -/

def initInternalStructs (env : Env) : Proc Unit := do
  let int8LT := LLVMInt8Type
  let int64LT := LLVMInt64Type
  let int8PtrLT := LLVMPointerType int8LT 0
  -- weakable control block
  let controlBlockStructL := LLVMStructCreateNamed env.CONTROL_BLOCK_STRUCT_NAME
  let memberTypesL : List LLVMTypeRef := []
  setGlobalState fun g => { g with controlBlockTypeStrIndex := memberTypesL.length }
  let memberTypesL := memberTypesL ++ [int8PtrLT]
  setGlobalState fun g => { g with controlBlockObjIdIndex := memberTypesL.length }
  let memberTypesL := memberTypesL ++ [int64LT]
  setGlobalState fun g => { g with controlBlockRcMemberIndex := memberTypesL.length }
  let memberTypesL := memberTypesL ++ [int64LT]
  setGlobalState fun g => { g with controlBlockWrciMemberIndex := memberTypesL.length }
  let memberTypesL := memberTypesL ++ [int64LT]
  let controlBlockStructL := LLVMStructSetBody controlBlockStructL memberTypesL false
  setGlobalState fun g => { g with weakableControlBlockStructL := controlBlockStructL }
  -- non-weakable control block
  let controlBlockStructL := LLVMStructCreateNamed env.CONTROL_BLOCK_STRUCT_NAME
  let memberTypesL : List LLVMTypeRef := []
  let g ← getGlobalState
  assert (memberTypesL.length == g.controlBlockTypeStrIndex)
    "memberTypesL.size() == globalState->controlBlockTypeStrIndex"
  let memberTypesL := memberTypesL ++ [int8PtrLT]
  let g ← getGlobalState
  assert (memberTypesL.length == g.controlBlockObjIdIndex)
    "memberTypesL.size() == globalState->controlBlockObjIdIndex"
  let memberTypesL := memberTypesL ++ [int64LT]
  let g ← getGlobalState
  assert (memberTypesL.length == g.controlBlockRcMemberIndex)
    "memberTypesL.size() == globalState->controlBlockRcMemberIndex"
  let memberTypesL := memberTypesL ++ [int64LT]
  let controlBlockStructL := LLVMStructSetBody controlBlockStructL memberTypesL false
  setGlobalState fun g => { g with nonWeakableControlBlockStructL := controlBlockStructL }
  -- string inner struct
  let stringInnerStructL := LLVMStructCreateNamed "__Str"
  let memberTypesL : List LLVMTypeRef := []
  let memberTypesL := memberTypesL ++ [LLVMInt64Type]
  let memberTypesL := memberTypesL ++ [LLVMArrayType int8LT 0]
  let stringInnerStructL := LLVMStructSetBody stringInnerStructL memberTypesL false
  setGlobalState fun g => { g with stringInnerStructL := stringInnerStructL }
  -- string wrapper struct
  let stringWrapperStructL := LLVMStructCreateNamed "__Str_rc"
  let memberTypesL : List LLVMTypeRef := []
  let g ← getGlobalState
  let memberTypesL := memberTypesL ++ [g.nonWeakableControlBlockStructL]
  let g ← getGlobalState
  let memberTypesL := memberTypesL ++ [g.stringInnerStructL]
  let stringWrapperStructL := LLVMStructSetBody stringWrapperStructL memberTypesL false
  setGlobalState fun g => { g with stringWrapperStructL := stringWrapperStructL }

/-! ## LLVM calls and collaborators used by the driver -/

def LLVMAddFunction (mod : LLVMModuleRef) (name : String) (functionTy : LLVMTypeRef) :
    Proc LLVMValueRef := do
  emit (.LLVMAddFunction mod name functionTy)
  pure (.function mod name functionTy)

def LLVMAddGlobal (mod : LLVMModuleRef) (ty : LLVMTypeRef) (name : String) :
    Proc LLVMValueRef := do
  emit (.LLVMAddGlobal mod ty name)
  pure (.global mod name ty)

def LLVMAppendBasicBlock (fn : LLVMValueRef) (name : String) : Proc LLVMBasicBlockRef := do
  emit (.LLVMAppendBasicBlock fn name)
  pure { parent := fn, name := name }

/-- The call `LLVMPositionBuilderAtEnd`: the result is the builder in its new position. -/
def LLVMPositionBuilderAtEnd (block : LLVMBasicBlockRef) : Proc LLVMBuilderRef := do
  emit (.LLVMPositionBuilderAtEnd block)
  pure { block := block }

def LLVMBuildCall (builder : LLVMBuilderRef) (fn : LLVMValueRef) (args : List LLVMValueRef)
    (name : String) : Proc LLVMValueRef := do
  emit (.LLVMBuild builder (.call fn args name))
  pure (.call fn args name)

def LLVMBuildLoad (builder : LLVMBuilderRef) (pointer : LLVMValueRef) (name : String) :
    Proc LLVMValueRef := do
  emit (.LLVMBuild builder (.load pointer name))
  pure (.load pointer name)

def LLVMBuildRet (builder : LLVMBuilderRef) (v : LLVMValueRef) : Proc LLVMValueRef := do
  emit (.LLVMBuild builder (.ret v))
  pure (.ret v)

/-- The struct declarator of `struct/struct.h`; the call is recorded. -/
def declareStruct (structM : StructDefinition) : Proc Unit := emit (.declareStruct structM)

/-- The interface declarator of `struct/interface.h`; the call is recorded. -/
def declareInterface (interfaceM : InterfaceDefinition) : Proc Unit :=
  emit (.declareInterface interfaceM)

/-- The struct translator of `struct/struct.h`; the call is recorded. -/
def translateStruct (structM : StructDefinition) : Proc Unit :=
  emit (.translateStruct structM)

/-- The interface translator of `struct/interface.h`; the call is recorded. -/
def translateInterface (interfaceM : InterfaceDefinition) : Proc Unit :=
  emit (.translateInterface interfaceM)

/-- The edge declarator of `struct/struct.h`; the call is recorded. -/
def declareEdge (e : Edge) : Proc Unit := emit (.declareEdge e)

/-- The edge translator of `struct/struct.h`; the call is recorded. -/
def translateEdge (e : Edge) : Proc Unit := emit (.translateEdge e)

/-- Modelled from the spec: the function declarator of `function/function.h`, which
is not part of the sources at hand: "`declare` emits a signature (name, mapped
parameter types, return type) without a body and returns a handle". The call is
recorded and the handle of the declared function is returned. -/
def declareFunction (function : Function) : Proc LLVMValueRef := do
  emit (.declareFunction function)
  pure (.declared function)

/-- The function translator of `function/function.h`; the call is recorded. -/
def translateFunction (function : Function) : Proc Unit :=
  emit (.translateFunction function)

/-- Modelled from the spec: `errorExit` of `error.h`, which is not part of the
sources at hand: "every fatal path prints a diagnostic before terminating", and a
failure "aborts the process immediately with a specific exit status". The diagnostic
is recorded and the process exits with the given code. -/
def errorExit (exitcode : ExitCode) (msg : String) : Proc Unit := do
  emit (.errorExit exitcode msg)
  halt (.exit exitcode)

/-- The copy made by `strncpy` into a zero-initialised buffer of `n` characters. -/
def strncpy (src : String) (n : Nat) : String := String.mk (src.data.take n)

/-! ## `addFunction`, `initInternalExterns` -/

def addFunction (mod : LLVMModuleRef) (name : String) (retType : LLVMTypeRef)
    (paramTypes : List LLVMTypeRef) : Proc LLVMValueRef := do
  let funcType := LLVMFunctionType retType paramTypes false
  LLVMAddFunction mod name funcType

def initInternalExterns : Proc Unit := do
  let voidLT := LLVMVoidType
  let voidPtrLT := LLVMPointerType voidLT 0
  let int1LT := LLVMInt1Type
  let int8LT := LLVMInt8Type
  let int64LT := LLVMInt64Type
  let int8PtrLT := LLVMPointerType int8LT 0
  let stringInnerStructPtrLT := LLVMPointerType (← getGlobalState).stringInnerStructL 0
  let f ← addFunction (← getGlobalState).mod "malloc" int8PtrLT [int64LT]
  setGlobalState fun g => { g with malloc := f }
  let f ← addFunction (← getGlobalState).mod "free" voidLT [int8PtrLT]
  setGlobalState fun g => { g with free := f }
  let f ← addFunction (← getGlobalState).mod "exit" voidLT [int8LT]
  setGlobalState fun g => { g with exit := f }
  let f ← addFunction (← getGlobalState).mod "__vassert" voidLT [int1LT]
  setGlobalState fun g => { g with assert := f }
  let f ← addFunction (← getGlobalState).mod "__vassertI64Eq" voidLT [int64LT, int64LT]
  setGlobalState fun g => { g with assertI64Eq := f }
  let f ← addFunction (← getGlobalState).mod "__vflare_i64" voidLT [int64LT, int64LT]
  setGlobalState fun g => { g with flareI64 := f }
  let f ← addFunction (← getGlobalState).mod "__vprintCStr" voidLT [int8PtrLT]
  setGlobalState fun g => { g with printCStr := f }
  let f ← addFunction (← getGlobalState).mod "getchar" int64LT []
  setGlobalState fun g => { g with getch := f }
  let f ← addFunction (← getGlobalState).mod "__vprintI64" voidLT [int64LT]
  setGlobalState fun g => { g with printInt := f }
  let f ← addFunction (← getGlobalState).mod "__vprintBool" voidLT [int1LT]
  setGlobalState fun g => { g with printBool := f }
  let f ← addFunction (← getGlobalState).mod "__vinitStr" voidLT
    [stringInnerStructPtrLT, int8PtrLT]
  setGlobalState fun g => { g with initStr := f }
  let f ← addFunction (← getGlobalState).mod "__vaddStr" voidLT
    [stringInnerStructPtrLT, stringInnerStructPtrLT, stringInnerStructPtrLT]
  setGlobalState fun g => { g with addStr := f }
  let f ← addFunction (← getGlobalState).mod "__veqStr" int8LT
    [stringInnerStructPtrLT, stringInnerStructPtrLT]
  setGlobalState fun g => { g with eqStr := f }
  let f ← addFunction (← getGlobalState).mod "__vprintStr" voidLT [stringInnerStructPtrLT]
  setGlobalState fun g => { g with printVStr := f }
  let f ← addFunction (← getGlobalState).mod "__vintToCStr" voidLT
    [int64LT, int8PtrLT, int64LT]
  setGlobalState fun g => { g with intToCStr := f }
  let f ← addFunction (← getGlobalState).mod "strlen" int64LT [int8PtrLT]
  setGlobalState fun g => { g with strlen := f }
  let f ← addFunction (← getGlobalState).mod "__vcensusContains" int64LT [voidPtrLT]
  setGlobalState fun g => { g with censusContains := f }
  let f ← addFunction (← getGlobalState).mod "__vcensusAdd" voidLT [voidPtrLT]
  setGlobalState fun g => { g with censusAdd := f }
  let f ← addFunction (← getGlobalState).mod "__vcensusRemove" voidLT [voidPtrLT]
  setGlobalState fun g => { g with censusRemove := f }
  let f ← addFunction (← getGlobalState).mod "__allocWrc" int64LT []
  setGlobalState fun g => { g with allocWrc := f }
  let f ← addFunction (← getGlobalState).mod "__incrementWrc" voidLT [int64LT]
  setGlobalState fun g => { g with incrementWrc := f }
  let f ← addFunction (← getGlobalState).mod "__decrementWrc" voidLT [int64LT]
  setGlobalState fun g => { g with decrementWrc := f }
  let f ← addFunction (← getGlobalState).mod "__wrcIsLive" int1LT [int64LT]
  setGlobalState fun g => { g with wrcIsLive := f }
  let f ← addFunction (← getGlobalState).mod "__markWrcDead" voidLT [int64LT]
  setGlobalState fun g => { g with markWrcDead := f }
  let f ← addFunction (← getGlobalState).mod "__getNumWrcs" int64LT []
  setGlobalState fun g => { g with getNumWrcs := f }

/-! ## `compileValeCode` -/

/-- The loop of lines 254-263: every function is declared, and `mainL` ends up as
the handle of the last function whose prototype name is `F("main")`. -/
def declareFunctions : List (String × Function) → Option LLVMValueRef →
    Proc (Option LLVMValueRef)
  | [], mainL => Proc.pure mainL
  | p :: rest, mainL => do
    let function := p.2
    let entryFunctionL ← declareFunction function
    let mainL :=
      if function.prototype.name.name == "F(\"main\")" then some entryFunctionL else mainL
    declareFunctions rest mainL

def compileValeCode (env : Env) (filename : String) : Proc Unit := do
  match env.readProgram filename with
  | none => halt .loadFailed
  | some program =>
    -- the entry function
    let paramTypesL := [LLVMInt64Type, LLVMPointerType (LLVMPointerType LLVMInt8Type 0) 0]
    let functionTypeL := LLVMFunctionType LLVMInt64Type paramTypesL false
    let entryFunctionL ← LLVMAddFunction (← getGlobalState).mod "main" functionTypeL
    emit (.LLVMSetLinkage entryFunctionL "LLVMDLLExportLinkage")
    emit (.LLVMSetDLLStorageClass entryFunctionL "LLVMDLLExportStorageClass")
    emit (.LLVMSetFunctionCallConv entryFunctionL "LLVMX86StdcallCallConv")
    emit .LLVMCreateBuilder
    let blockL ← LLVMAppendBasicBlock entryFunctionL "thebestblock"
    let entryBuilder ← LLVMPositionBuilderAtEnd blockL
    setGlobalState fun g => { g with program := program }
    setGlobalState fun g => { g with stringConstantBuilder := entryBuilder }
    let c ← LLVMAddGlobal (← getGlobalState).mod LLVMInt64Type "__liveHeapObjCounter"
    setGlobalState fun g => { g with liveHeapObjCounter := c }
    emit (.LLVMSetInitializer (← getGlobalState).liveHeapObjCounter
      (LLVMConstInt LLVMInt64Type 0 false))
    let c ← LLVMAddGlobal (← getGlobalState).mod LLVMInt64Type "__objIdCounter"
    setGlobalState fun g => { g with objIdCounter := c }
    emit (.LLVMSetInitializer (← getGlobalState).objIdCounter
      (LLVMConstInt LLVMInt64Type 501 false))
    initInternalStructs env
    initInternalExterns
    -- the phases
    forEach program.structs fun p => do
      let structM := p.2
      declareStruct structM
    forEach program.interfaces fun p => do
      let interfaceM := p.2
      declareInterface interfaceM
    forEach program.structs fun p => do
      let structM := p.2
      translateStruct structM
    forEach program.interfaces fun p => do
      let interfaceM := p.2
      translateInterface interfaceM
    forEach program.structs fun p => do
      let structM := p.2
      forEach structM.edges fun e => declareEdge e
    let mainL ← declareFunctions program.functions none
    match mainL with
    | none => halt (.assertFailed "mainL != nullptr")
    | some mainL =>
      forEach program.structs fun p => do
        let structM := p.2
        forEach structM.edges fun e => translateEdge e
      forEach program.functions fun p => do
        let function := p.2
        translateFunction function
      -- the body of the entry function
      let mainResult ← LLVMBuildCall entryBuilder mainL [] "valeMainCall"
      let numLiveObjs ←
        LLVMBuildLoad entryBuilder (← getGlobalState).liveHeapObjCounter "numLiveObjs"
      let args := [LLVMConstInt LLVMInt64Type 0 false, numLiveObjs]
      let _ ← LLVMBuildCall entryBuilder (← getGlobalState).assertI64Eq args ""
      let numWrcs ← LLVMBuildCall entryBuilder (← getGlobalState).getNumWrcs [] "numWrcs"
      let args := [LLVMConstInt LLVMInt64Type 0 false, numWrcs]
      let _ ← LLVMBuildCall entryBuilder (← getGlobalState).assertI64Eq args ""
      let _ ← LLVMBuildRet entryBuilder mainResult
      emit (.LLVMDisposeBuilder entryBuilder)

/-! ## The backend pipeline -/

def createModule (env : Env) : Proc Unit := do
  let moduleID := (← getOpt).srcDirAndNameNoExt
  emit (.LLVMModuleCreateWithNameInContext moduleID)
  setGlobalState fun g => { g with mod := { moduleID := moduleID } }
  if !(← getOpt).release then
    emit (.LLVMCreateDIBuilder (← getGlobalState).mod)
    emit (.LLVMDIBuilderCreateFile "main.vale" ".")
    emit (.LLVMDIBuilderCreateCompileUnit "Vale compiler")
  compileValeCode env (← getOpt).srcpath
  if !(← getOpt).release then
    emit .LLVMDIBuilderFinalize

def createMachine (env : Env) : Proc (Option LLVMTargetMachineRef) := do
  emit (.LLVMInitializeX86 "TargetInfo")
  emit (.LLVMInitializeX86 "TargetMC")
  emit (.LLVMInitializeX86 "Target")
  emit (.LLVMInitializeX86 "AsmPrinter")
  emit (.LLVMInitializeX86 "AsmParser")
  if (← getOpt).triple.isNone then
    setOpt fun o => { o with triple := some env.LLVMGetDefaultTargetTriple }
  let triple := (← getOpt).triple.getD env.LLVMGetDefaultTargetTriple
  match env.LLVMGetTargetFromTriple triple with
  | .error err =>
    errorExit .LlvmSetupFailed ("Could not create target: " ++ err)
    emit .LLVMDisposeMessage
    return none
  | .ok target =>
    let opt_level :=
      if (← getOpt).release then LLVMCodeGenOptLevel.LLVMCodeGenLevelAggressive
      else LLVMCodeGenOptLevel.LLVMCodeGenLevelNone
    let reloc :=
      if (← getOpt).pic || (← getOpt).library then LLVMRelocMode.LLVMRelocPIC
      else LLVMRelocMode.LLVMRelocDefault
    if (← getOpt).cpu.isNone then
      setOpt fun o => { o with cpu := some "generic" }
    if (← getOpt).features.isNone then
      setOpt fun o => { o with features := some "" }
    let machine : LLVMTargetMachineRef :=
      { target := target, triple := triple, cpu := (← getOpt).cpu.getD "generic",
        features := (← getOpt).features.getD "", level := opt_level, reloc := reloc }
    if !env.LLVMCreateTargetMachine machine then
      errorExit .LlvmSetupFailed "Could not create target machine"
      return none
    return some machine

def generateOutput (env : Env) (objpath : String) (asmpath : Option String)
    (mod : LLVMModuleRef) (triple : Option String) (machine : LLVMTargetMachineRef) :
    Proc Unit := do
  emit (.LLVMSetTarget mod triple)
  emit (.LLVMSetDataLayout mod machine)
  emit .LLVMDisposeMessage
  match asmpath with
  | some asmpath =>
    let asmpathCStr := strncpy asmpath 1024
    emit (.LLVMTargetMachineEmitToFile machine mod asmpathCStr .LLVMAssemblyFile)
    match env.emitAsm with
    | some _ =>
      emit (.cerr ("Could not emit asm file: " ++ asmpathCStr ++ "\n"))
      emit .LLVMDisposeMessage
    | none => pure ()
  | none => pure ()
  let objpathCStr := strncpy objpath 1024
  emit (.LLVMTargetMachineEmitToFile machine mod objpathCStr .LLVMObjectFile)
  match env.emitObj with
  | some err =>
    emit (.cerr ("Could not emit obj file to path " ++ objpathCStr ++ " " ++ err ++ "\n"))
    emit .LLVMDisposeMessage
  | none => pure ()

/-- The extension `asmext` (the non-Windows branch of lines 30-36). -/
def asmext : String := "s"

/-- The extension `objext` (the non-Windows branch of lines 30-36). -/
def objext : String := "o"

/-- Lines 413-417 of `generateModule`: "Serialize the LLVM IR, if requested". -/
def generateModule.serializeIR (env : Env) : Proc Unit := do
  if (← getOpt).print_llvmir then
    emit (.LLVMPrintModuleToFile (← getGlobalState).mod
      (env.fileMakePath (← getOpt).output (← getOpt).srcNameNoExt "ll"))
    match env.printModulePre with
    | some err =>
      emit (.cerr ("Could not emit pre-ir file: " ++ err ++ "\n"))
      emit .LLVMDisposeMessage
    | none => pure ()

/-- Lines 419-428 of `generateModule`: "Verify generated IR". -/
def generateModule.verifyIR (env : Env) : Proc Unit := do
  if (← getOpt).verify then
    emit (.LLVMVerifyModule (← getGlobalState).mod)
    match env.verifyModule with
    | none => halt .llvmAbort
    | some error =>
      match error with
      | some error =>
        if error != "" then
          errorExit .VerifyFailed ("Module verification failed:\n" ++ error)
        emit .LLVMDisposeMessage
      | none => pure ()

/-- Lines 430-440 of `generateModule`: "Optimize the generated LLVM IR". -/
def generateModule.optimizeIR : Proc Unit := do
  emit .LLVMCreatePassManager
  emit (.LLVMAddPass .PromoteMemoryToRegister)
  emit (.LLVMAddPass .InstructionCombining)
  emit (.LLVMAddPass .Reassociate)
  emit (.LLVMAddPass .GVN)
  emit (.LLVMAddPass .CFGSimplification)
  if (← getOpt).release then
    emit (.LLVMAddPass .FunctionInlining)
  emit (.LLVMRunPassManager (← getGlobalState).mod)
  emit .LLVMDisposePassManager

/-- Lines 442-448 of `generateModule`: "Serialize the LLVM IR, if requested", after
the optimization. -/
def generateModule.serializeOptimizedIR (env : Env) : Proc Unit := do
  let outputFilePath := env.fileMakePath (← getOpt).output (← getOpt).srcNameNoExt "opt.ll"
  emit (.cout ("Printing file " ++ outputFilePath ++ "\n"))
  if (← getOpt).print_llvmir then
    emit (.LLVMPrintModuleToFile (← getGlobalState).mod outputFilePath)
    match env.printModulePost with
    | some err =>
      emit (.cerr ("Could not emit ir file: " ++ err ++ "\n"))
      emit .LLVMDisposeMessage
    | none => pure ()

/-- Lines 450-462 of `generateModule`: "Transform IR to target's ASM and OBJ". -/
def generateModule.transformIR (env : Env) : Proc Unit := do
  match (← getGlobalState).machine with
  | some machine =>
    let objpath := env.fileMakePath (← getOpt).output (← getOpt).srcNameNoExt
      (if (← getOpt).wasm then "wasm" else objext)
    let asmpath := env.fileMakePath (← getOpt).output (← getOpt).srcNameNoExt
      (if (← getOpt).wasm then "wat" else asmext)
    generateOutput env objpath (if (← getOpt).print_asm then some asmpath else none)
      (← getGlobalState).mod (← getOpt).triple machine
  | none => pure ()

/-- The body of `generateModule`, one step for each of the headings of its source
text, in their order. -/
def generateModule (env : Env) : Proc Unit := do
  createModule env
  generateModule.serializeIR env
  generateModule.verifyIR env
  generateModule.optimizeIR
  generateModule.serializeOptimizedIR env
  generateModule.transformIR env
  emit (.LLVMDisposeModule (← getGlobalState).mod)

def setup (env : Env) : Proc Unit := do
  let machine ← createMachine env
  match machine with
  | none => halt (.exit .BadOpts)
  | some machine =>
    setGlobalState fun g => { g with machine := some machine }
    setGlobalState fun g => { g with dataLayout := some machine }
    setGlobalState fun g => { g with ptrSize := env.LLVMPointerSize machine <<< 3 }

def closeGlobalState : Proc Unit := do
  emit (.LLVMDisposeTargetMachine (← getGlobalState).machine)

def main (env : Env) (argv : List String) : Proc Unit := do
  let (ok, valeOptions, argv) := env.valeOptSet (← getOpt) argv
  setOpt fun _ => valeOptions
  if ok ≤ 0 then
    halt (.exit (if ok == 0 then ExitCode.Success else ExitCode.BadOpts))
  if argv.length < 2 then
    errorExit .BadOpts "Specify a Vale program to compile."
  let srcpath := argv.getD 1 ""
  setOpt fun o => { o with srcpath := srcpath }
  setOpt fun o => { o with srcDir := env.fileDirectory o.srcpath }
  setOpt fun o => { o with srcNameNoExt := env.getFileNameNoExt o.srcpath }
  setOpt fun o => { o with srcDirAndNameNoExt := o.srcDir ++ o.srcNameNoExt }
  setup env
  generateModule env
  closeGlobalState

/-! ## Observations on a run -/

/-- Records a list of calls. -/
def emitAll (es : List Event) : Proc Unit := fun w =>
  .ok () { w with trace := w.trace ++ es }

/-- The calls issued by a run that started in the world `w`. -/
def issued {α : Type} (w : World) (r : Res α) : List Event := r.trace.drop w.trace.length

/-- Calls into the struct / interface / edge / function translators. -/
def Event.isPhaseCall : Event → Bool
  | .declareStruct _ => true
  | .declareInterface _ => true
  | .translateStruct _ => true
  | .translateInterface _ => true
  | .declareEdge _ => true
  | .declareFunction _ => true
  | .translateEdge _ => true
  | .translateFunction _ => true
  | _ => false

/-- The translator calls of a list of calls, in order. -/
def phaseCalls (t : List Event) : List Event := t.filter Event.isPhaseCall

/-- Position of a translator call in the global phase order. -/
def Event.phaseRank : Event → Nat
  | .declareStruct _ => 0
  | .declareInterface _ => 1
  | .translateStruct _ => 2
  | .translateInterface _ => 3
  | .declareEdge _ => 4
  | .declareFunction _ => 5
  | .translateEdge _ => 6
  | .translateFunction _ => 7
  | _ => 8

def Event.build? : Event → Option (LLVMBuilderRef × LLVMValueRef)
  | .LLVMBuild builder instruction => some (builder, instruction)
  | _ => none

/-- The instructions built, in order, each with the builder it was built with. -/
def builds (t : List Event) : List (LLVMBuilderRef × LLVMValueRef) := t.filterMap Event.build?

def Event.addedFunction? : Event → Option (String × LLVMTypeRef)
  | .LLVMAddFunction _ name functionTy => some (name, functionTy)
  | _ => none

/-- Name and type of the functions added to the module, in order. -/
def addedFunctions (t : List Event) : List (String × LLVMTypeRef) :=
  t.filterMap Event.addedFunction?

/-- Whether some function of the program has the prototype name `F("main")`. -/
def hasMain (program : Program) : Bool :=
  program.functions.any (fun p => p.2.prototype.name.name == "F(\"main\")")

/-- The value of `mainL` after the declaration loop. -/
def lastMain : List (String × Function) → Option LLVMValueRef → Option LLVMValueRef
  | [], mainL => mainL
  | p :: rest, mainL =>
    lastMain rest (if p.2.prototype.name.name == "F(\"main\")" then some (.declared p.2) else mainL)

/-- The type `(int64, int8**) -> int64` of the entry function. -/
def entryFunctionType : LLVMTypeRef :=
  .function .int64 [.int64, .pointer (.pointer .int8 0) 0] false

def entryFunction (mod : LLVMModuleRef) : LLVMValueRef := .function mod "main" entryFunctionType

def entryBlock (mod : LLVMModuleRef) : LLVMBasicBlockRef :=
  { parent := entryFunction mod, name := "thebestblock" }

/-- The intrinsic table: name and function type of every runtime routine, in the
order of declaration. -/
def internalExterns (stringInnerStructL : LLVMTypeRef) : List (String × LLVMTypeRef) :=
  [ ("malloc", .function (.pointer .int8 0) [.int64] false),
    ("free", .function .void [.pointer .int8 0] false),
    ("exit", .function .void [.int8] false),
    ("__vassert", .function .void [.int1] false),
    ("__vassertI64Eq", .function .void [.int64, .int64] false),
    ("__vflare_i64", .function .void [.int64, .int64] false),
    ("__vprintCStr", .function .void [.pointer .int8 0] false),
    ("getchar", .function .int64 [] false),
    ("__vprintI64", .function .void [.int64] false),
    ("__vprintBool", .function .void [.int1] false),
    ("__vinitStr", .function .void [.pointer stringInnerStructL 0, .pointer .int8 0] false),
    ("__vaddStr", .function .void
      [.pointer stringInnerStructL 0, .pointer stringInnerStructL 0,
        .pointer stringInnerStructL 0] false),
    ("__veqStr", .function .int8
      [.pointer stringInnerStructL 0, .pointer stringInnerStructL 0] false),
    ("__vprintStr", .function .void [.pointer stringInnerStructL 0] false),
    ("__vintToCStr", .function .void [.int64, .pointer .int8 0, .int64] false),
    ("strlen", .function .int64 [.pointer .int8 0] false),
    ("__vcensusContains", .function .int64 [.pointer .void 0] false),
    ("__vcensusAdd", .function .void [.pointer .void 0] false),
    ("__vcensusRemove", .function .void [.pointer .void 0] false),
    ("__allocWrc", .function .int64 [] false),
    ("__incrementWrc", .function .void [.int64] false),
    ("__decrementWrc", .function .void [.int64] false),
    ("__wrcIsLive", .function .int1 [.int64] false),
    ("__markWrcDead", .function .void [.int64] false),
    ("__getNumWrcs", .function .int64 [] false) ]

def stringInnerStruct : LLVMTypeRef := .struct "__Str" [.int64, .array .int8 0] false

/-- Calls of `compileValeCode` before the first phase (lines 184-220). -/
def setupCalls (mod : LLVMModuleRef) : List Event :=
  [ .LLVMAddFunction mod "main" entryFunctionType,
    .LLVMSetLinkage (entryFunction mod) "LLVMDLLExportLinkage",
    .LLVMSetDLLStorageClass (entryFunction mod) "LLVMDLLExportStorageClass",
    .LLVMSetFunctionCallConv (entryFunction mod) "LLVMX86StdcallCallConv",
    .LLVMCreateBuilder,
    .LLVMAppendBasicBlock (entryFunction mod) "thebestblock",
    .LLVMPositionBuilderAtEnd (entryBlock mod),
    .LLVMAddGlobal mod .int64 "__liveHeapObjCounter",
    .LLVMSetInitializer (.global mod "__liveHeapObjCounter" .int64) (.constInt .int64 0 false),
    .LLVMAddGlobal mod .int64 "__objIdCounter",
    .LLVMSetInitializer (.global mod "__objIdCounter" .int64) (.constInt .int64 501 false) ]
  ++ (internalExterns stringInnerStruct).map (fun d => .LLVMAddFunction mod d.1 d.2)

def declareCalls (program : Program) : List Event :=
  program.structs.map (fun p => .declareStruct p.2)
  ++ program.interfaces.map (fun p => .declareInterface p.2)
  ++ program.structs.map (fun p => .translateStruct p.2)
  ++ program.interfaces.map (fun p => .translateInterface p.2)
  ++ program.structs.flatMap (fun p => p.2.edges.map .declareEdge)
  ++ program.functions.map (fun p => .declareFunction p.2)

def translateCalls (program : Program) : List Event :=
  program.structs.flatMap (fun p => p.2.edges.map .translateEdge)
  ++ program.functions.map (fun p => .translateFunction p.2)

def entryBody (mod : LLVMModuleRef) (mainL : LLVMValueRef) : List LLVMValueRef :=
  [ .call mainL [] "valeMainCall",
    .load (.global mod "__liveHeapObjCounter" .int64) "numLiveObjs",
    .call (.function mod "__vassertI64Eq" (.function .void [.int64, .int64] false))
      [.constInt .int64 0 false, .load (.global mod "__liveHeapObjCounter" .int64) "numLiveObjs"] "",
    .call (.function mod "__getNumWrcs" (.function .int64 [] false)) [] "numWrcs",
    .call (.function mod "__vassertI64Eq" (.function .void [.int64, .int64] false))
      [.constInt .int64 0 false,
        .call (.function mod "__getNumWrcs" (.function .int64 [] false)) [] "numWrcs"] "",
    .ret (.call mainL [] "valeMainCall") ]

/-- The phase order of the spec: declare-struct, declare-interface, translate-struct,
translate-interface, declare-edge, declare-function, translate-edge,
translate-function. -/
def phaseOrder (program : Program) : List Event :=
  declareCalls program ++ translateCalls program

/-- A list of calls that respects the phase order, all of rank at most `n`. -/
def RankedUpTo (n : Nat) (t : List Event) : Prop :=
  t.Pairwise (fun a b => a.phaseRank ≤ b.phaseRank) ∧ ∀ e ∈ t, e.phaseRank ≤ n

/-- The names of the intrinsic table, in the order of declaration. -/
def internalExternNames : List String :=
  ["malloc", "free", "exit", "__vassert", "__vassertI64Eq", "__vflare_i64", "__vprintCStr",
    "getchar", "__vprintI64", "__vprintBool", "__vinitStr", "__vaddStr", "__veqStr",
    "__vprintStr", "__vintToCStr", "strlen", "__vcensusContains", "__vcensusAdd",
    "__vcensusRemove", "__allocWrc", "__incrementWrc", "__decrementWrc", "__wrcIsLive",
    "__markWrcDead", "__getNumWrcs"]

/-! ## Calls of the backend pipeline -/

/-- Calls of the step "Serialize the LLVM IR, if requested" before the optimization. -/
def serializeIRCalls (env : Env) (opt : ValeOptions) (mod : LLVMModuleRef) : List Event :=
  if opt.print_llvmir then
    .LLVMPrintModuleToFile mod (env.fileMakePath opt.output opt.srcNameNoExt "ll") ::
      (match env.printModulePre with
        | some err => [.cerr ("Could not emit pre-ir file: " ++ err ++ "\n"), .LLVMDisposeMessage]
        | none => [])
  else []

/-- Whether the step "Verify generated IR" lets the process go on. -/
def verifyPasses (env : Env) (opt : ValeOptions) : Bool :=
  !opt.verify ||
    (match env.verifyModule with
      | none => false
      | some none => true
      | some (some error) => error == "")

/-- Calls of the step "Verify generated IR", when it lets the process go on. -/
def verifyIRCalls (env : Env) (opt : ValeOptions) (mod : LLVMModuleRef) : List Event :=
  if opt.verify then
    .LLVMVerifyModule mod ::
      (match env.verifyModule with
        | some (some _) => [.LLVMDisposeMessage]
        | _ => [])
  else []

/-- The passes added to the pass manager, in order. -/
def passList (release : Bool) : List Pass :=
  [.PromoteMemoryToRegister, .InstructionCombining, .Reassociate, .GVN, .CFGSimplification]
    ++ (if release then [.FunctionInlining] else [])

/-- Calls of the step "Optimize the generated LLVM IR". -/
def optimizeIRCalls (opt : ValeOptions) (mod : LLVMModuleRef) : List Event :=
  [.LLVMCreatePassManager] ++ (passList opt.release).map .LLVMAddPass
    ++ [.LLVMRunPassManager mod, .LLVMDisposePassManager]

/-- Calls of the step "Serialize the LLVM IR, if requested" after the optimization. -/
def serializeOptimizedIRCalls (env : Env) (opt : ValeOptions) (mod : LLVMModuleRef) :
    List Event :=
  .cout ("Printing file " ++ env.fileMakePath opt.output opt.srcNameNoExt "opt.ll" ++ "\n") ::
    (if opt.print_llvmir then
      .LLVMPrintModuleToFile mod (env.fileMakePath opt.output opt.srcNameNoExt "opt.ll") ::
        (match env.printModulePost with
          | some err => [.cerr ("Could not emit ir file: " ++ err ++ "\n"), .LLVMDisposeMessage]
          | none => [])
    else [])

/-- Calls of the assembly emission of `generateOutput`. -/
def emitAsmCalls (env : Env) (asmpath : Option String) (mod : LLVMModuleRef)
    (machine : LLVMTargetMachineRef) : List Event :=
  match asmpath with
  | some asmpath =>
    .LLVMTargetMachineEmitToFile machine mod (strncpy asmpath 1024) .LLVMAssemblyFile ::
      (match env.emitAsm with
        | some _ =>
          [.cerr ("Could not emit asm file: " ++ strncpy asmpath 1024 ++ "\n"),
            .LLVMDisposeMessage]
        | none => [])
  | none => []

/-- Calls of the object emission of `generateOutput`. -/
def emitObjCalls (env : Env) (objpath : String) (mod : LLVMModuleRef)
    (machine : LLVMTargetMachineRef) : List Event :=
  .LLVMTargetMachineEmitToFile machine mod (strncpy objpath 1024) .LLVMObjectFile ::
    (match env.emitObj with
      | some err =>
        [.cerr ("Could not emit obj file to path " ++ strncpy objpath 1024 ++ " " ++ err
            ++ "\n"),
          .LLVMDisposeMessage]
      | none => [])

/-- Calls of `generateOutput`. -/
def generateOutputCalls (env : Env) (objpath : String) (asmpath : Option String)
    (mod : LLVMModuleRef) (triple : Option String) (machine : LLVMTargetMachineRef) :
    List Event :=
  [.LLVMSetTarget mod triple, .LLVMSetDataLayout mod machine, .LLVMDisposeMessage]
    ++ emitAsmCalls env asmpath mod machine ++ emitObjCalls env objpath mod machine

/-- Calls of the step "Transform IR to target's ASM and OBJ". -/
def transformIRCalls (env : Env) (opt : ValeOptions) (mod : LLVMModuleRef)
    (machine : Option LLVMTargetMachineRef) : List Event :=
  match machine with
  | some machine =>
    generateOutputCalls env
      (env.fileMakePath opt.output opt.srcNameNoExt (if opt.wasm then "wasm" else objext))
      (if opt.print_asm then
        some (env.fileMakePath opt.output opt.srcNameNoExt (if opt.wasm then "wat" else asmext))
      else none)
      mod opt.triple machine
  | none => []

/-- The module `createModule` creates. -/
def createdModule (opt : ValeOptions) : LLVMModuleRef := { moduleID := opt.srcDirAndNameNoExt }

/-- Calls of `generateModule` after `createModule` has returned, when the verification
step lets the process go on. -/
def backendCalls (env : Env) (opt : ValeOptions) (machine : Option LLVMTargetMachineRef) :
    List Event :=
  serializeIRCalls env opt (createdModule opt) ++ (verifyIRCalls env opt (createdModule opt)
    ++ (optimizeIRCalls opt (createdModule opt)
    ++ (serializeOptimizedIRCalls env opt (createdModule opt)
    ++ (transformIRCalls env opt (createdModule opt) machine
    ++ [.LLVMDisposeModule (createdModule opt)]))))

/-- The triple `createMachine` looks up: the one of the options, or the default. -/
def targetTriple (env : Env) (opt : ValeOptions) : String :=
  opt.triple.getD env.LLVMGetDefaultTargetTriple

/-- The machine `createMachine` asks LLVM for. -/
def requestedMachine (env : Env) (opt : ValeOptions) (target : LLVMTargetRef) :
    LLVMTargetMachineRef :=
  { target := target, triple := targetTriple env opt, cpu := opt.cpu.getD "generic",
    features := opt.features.getD "",
    level := if opt.release then .LLVMCodeGenLevelAggressive else .LLVMCodeGenLevelNone,
    reloc := if opt.pic || opt.library then .LLVMRelocPIC else .LLVMRelocDefault }

/-- The diagnostic of the failed step of `createMachine`: the target lookup or the
creation of the target machine; `none` when both succeed. -/
def setupFailure (env : Env) (opt : ValeOptions) : Option String :=
  match env.LLVMGetTargetFromTriple (targetTriple env opt) with
  | .error err => some ("Could not create target: " ++ err)
  | .ok target =>
    if env.LLVMCreateTargetMachine (requestedMachine env opt target) then none
    else some "Could not create target machine"

def initializeX86Calls : List Event :=
  [.LLVMInitializeX86 "TargetInfo", .LLVMInitializeX86 "TargetMC", .LLVMInitializeX86 "Target",
    .LLVMInitializeX86 "AsmPrinter", .LLVMInitializeX86 "AsmParser"]

/-- The options `main` hands to `setup`: those filled in by `valeOptSet`, with the
source path and the names derived from it. -/
def mainOptions (env : Env) (opt : ValeOptions) (argv : List String) : ValeOptions :=
  { (env.valeOptSet opt argv).2.1 with
    srcpath := (env.valeOptSet opt argv).2.2.getD 1 ""
    srcDir := env.fileDirectory ((env.valeOptSet opt argv).2.2.getD 1 "")
    srcNameNoExt := env.getFileNameNoExt ((env.valeOptSet opt argv).2.2.getD 1 "")
    srcDirAndNameNoExt :=
      env.fileDirectory ((env.valeOptSet opt argv).2.2.getD 1 "") ++
        env.getFileNameNoExt ((env.valeOptSet opt argv).2.2.getD 1 "") }

def Event.addedPass? : Event → Option Pass
  | .LLVMAddPass pass => some pass
  | _ => none

/-- The passes added to the pass manager, in order. -/
def addedPasses (t : List Event) : List Pass := t.filterMap Event.addedPass?

/-- Calls that create, fill, run or dispose the pass manager. -/
def Event.isPassManagerCall : Event → Bool
  | .LLVMCreatePassManager => true
  | .LLVMAddPass _ => true
  | .LLVMRunPassManager _ => true
  | .LLVMDisposePassManager => true
  | _ => false

def Event.isRunPassManager : Event → Bool
  | .LLVMRunPassManager _ => true
  | _ => false

def Event.consoleOutput? : Event → Option String
  | .cout s => some s
  | .cerr s => some s
  | .errorExit _ msg => some msg
  | _ => none

/-- What the process writes to the console, in order. -/
def consoleOutput (t : List Event) : List String := t.filterMap Event.consoleOutput?

/-- Calls of `compileValeCode` for a program whose `main` has the handle `mainL`. -/
def compileValeCodeCalls (mod : LLVMModuleRef) (program : Program) (mainL : LLVMValueRef) :
    List Event :=
  setupCalls mod ++ (declareCalls program ++ (translateCalls program ++
    ((entryBody mod mainL).map (.LLVMBuild { block := entryBlock mod })
      ++ [.LLVMDisposeBuilder { block := entryBlock mod }])))

/-- Calls of `createModule` for a program whose `main` has the handle `mainL`. -/
def createModuleCalls (opt : ValeOptions) (program : Program) (mainL : LLVMValueRef) :
    List Event :=
  .LLVMModuleCreateWithNameInContext opt.srcDirAndNameNoExt ::
    ((if opt.release then []
      else [.LLVMCreateDIBuilder (createdModule opt), .LLVMDIBuilderCreateFile "main.vale" ".",
        .LLVMDIBuilderCreateCompileUnit "Vale compiler"])
    ++ (compileValeCodeCalls (createdModule opt) program mainL
    ++ (if opt.release then [] else [.LLVMDIBuilderFinalize])))

/-! ## Calls per definition -/

def Event.declaredStruct? : Event → Option StructDefinition
  | .declareStruct structM => some structM
  | _ => none

def Event.translatedStruct? : Event → Option StructDefinition
  | .translateStruct structM => some structM
  | _ => none

def Event.declaredInterface? : Event → Option InterfaceDefinition
  | .declareInterface interfaceM => some interfaceM
  | _ => none

def Event.translatedInterface? : Event → Option InterfaceDefinition
  | .translateInterface interfaceM => some interfaceM
  | _ => none

def Event.declaredEdge? : Event → Option Edge
  | .declareEdge e => some e
  | _ => none

def Event.translatedEdge? : Event → Option Edge
  | .translateEdge e => some e
  | _ => none

def Event.declaredFunction? : Event → Option Function
  | .declareFunction function => some function
  | _ => none

def Event.translatedFunction? : Event → Option Function
  | .translateFunction function => some function
  | _ => none

/-- The arguments of the `declareStruct` calls, in order. -/
def declaredStructs (t : List Event) : List StructDefinition :=
  t.filterMap Event.declaredStruct?

/-- The arguments of the `translateStruct` calls, in order. -/
def translatedStructs (t : List Event) : List StructDefinition :=
  t.filterMap Event.translatedStruct?

/-- The arguments of the `declareInterface` calls, in order. -/
def declaredInterfaces (t : List Event) : List InterfaceDefinition :=
  t.filterMap Event.declaredInterface?

/-- The arguments of the `translateInterface` calls, in order. -/
def translatedInterfaces (t : List Event) : List InterfaceDefinition :=
  t.filterMap Event.translatedInterface?

/-- The arguments of the `declareEdge` calls, in order. -/
def declaredEdges (t : List Event) : List Edge := t.filterMap Event.declaredEdge?

/-- The arguments of the `translateEdge` calls, in order. -/
def translatedEdges (t : List Event) : List Edge := t.filterMap Event.translatedEdge?

/-- The arguments of the `declareFunction` calls, in order. -/
def declaredFunctions (t : List Event) : List Function := t.filterMap Event.declaredFunction?

/-- The arguments of the `translateFunction` calls, in order. -/
def translatedFunctions (t : List Event) : List Function :=
  t.filterMap Event.translatedFunction?

/-- The edges of all structs of a program, struct by struct in iteration order. -/
def allEdges (program : Program) : List Edge := program.structs.flatMap (fun p => p.2.edges)

/-- The translator calls of a run on a program: the declaration phases, and the
translation of edges and functions when the program has a `main`. -/
def phaseCallsOf (program : Program) : List Event :=
  declareCalls program ++ (if hasMain program then translateCalls program else [])

/-! ## Example inputs -/

def areaPrototype : Prototype :=
  { name := { name := "F(\"area\")" }, params := ["Point"], returnType := "i64" }

def areaFunction : Function := { prototype := areaPrototype, block := "" }

def mainFunction : Function :=
  { prototype := { name := { name := "F(\"main\")" }, params := [], returnType := "i64" },
    block := "" }

def pointEdge : Edge :=
  { structName := "Point", interfaceName := "Shape",
    structPrototypesByInterfaceMethod := [(areaPrototype, areaPrototype)] }

/-- The program of the end-to-end example: struct `Point`, interface `Shape`, the
edge between them, and `main`. -/
def pointProgram : Program :=
  { structs :=
      [("Point", { name := "Point", members := [("x", "i64"), ("y", "i64")],
                   edges := [pointEdge] })],
    interfaces := [("Shape", { name := "Shape", methods := [areaPrototype] })],
    functions := [("F(\"area\")", areaFunction), ("F(\"main\")", mainFunction)] }

/-- A program with one function, which is not `main`. -/
def noMainProgram : Program :=
  { structs := [], interfaces := [], functions := [("F(\"area\")", areaFunction)] }

/-- An environment in which every external call succeeds and the loader returns the
given program. -/
def exampleEnv (program : Option Program) : Env :=
  { CONTROL_BLOCK_STRUCT_NAME := "__ControlBlock"
    fileMakePath := fun dir name ext => dir ++ "/" ++ name ++ "." ++ ext
    fileDirectory := fun _ => ""
    getFileNameNoExt := fun path => path
    valeOptSet := fun o argv => (1, o, argv)
    readProgram := fun _ => program
    LLVMPointerSize := fun _ => 8
    LLVMGetDefaultTargetTriple := "x86_64-unknown-linux-gnu"
    LLVMGetTargetFromTriple := fun triple => .ok { triple := triple }
    LLVMCreateTargetMachine := fun _ => true
    printModulePre := none
    printModulePost := none
    verifyModule := some (some "")
    emitAsm := none
    emitObj := none }

def exampleModule : LLVMModuleRef := { moduleID := "point" }

def exampleOptions : ValeOptions :=
  { srcpath := "point.vast", srcDir := "", srcNameNoExt := "point",
    srcDirAndNameNoExt := "point", output := "out", triple := none, cpu := none,
    features := none, pic := false, library := false, release := false, wasm := false,
    verify := false, print_llvmir := false, print_asm := false }

def exampleMachine : LLVMTargetMachineRef :=
  { target := { triple := "x86_64-unknown-linux-gnu" }, triple := "x86_64-unknown-linux-gnu",
    cpu := "generic", features := "", level := .LLVMCodeGenLevelNone,
    reloc := .LLVMRelocDefault }

/-- A world with the module created and no call issued yet. -/
def exampleWorld : World :=
  { opt := exampleOptions,
    globalState := { (default : GlobalState) with mod := exampleModule },
    trace := [] }

/-- A world as `setup` leaves it: the machine is created, no module yet; every
optional step of `generateModule` is disabled. -/
def readyWorld : World :=
  { opt := exampleOptions,
    globalState := { (default : GlobalState) with machine := some exampleMachine },
    trace := [] }

/-- The same world with the assembly output requested. -/
def asmWorld : World :=
  { readyWorld with opt := { exampleOptions with print_asm := true } }

/-- An environment in which both file emissions of `generateOutput` fail. -/
def emissionFailingEnv : Env :=
  { exampleEnv (some pointProgram) with
    emitAsm := some "cannot open file", emitObj := some "cannot open file" }

/-- An environment in which the target lookup fails. -/
def lookupFailingEnv : Env :=
  { exampleEnv (some pointProgram) with
    LLVMGetTargetFromTriple := fun _ => .error "no targets are registered" }

/-! ## Evaluation lemmas for procedures -/

@[simp] theorem pure_run {α : Type} (a : α) (w : World) :
    (Pure.pure a : Proc α) w = .ok a w := rfl

@[simp] theorem procPure_run {α : Type} (a : α) (w : World) :
    (Proc.pure a : Proc α) w = .ok a w := rfl

@[simp] theorem bind_run {α β : Type} (m : Proc α) (f : α → Proc β) (w : World) :
    (m >>= f) w = match m w with
      | .ok a w1 => f a w1
      | .halt h w1 => .halt h w1 := rfl

@[simp] theorem procBind_run {α β : Type} (m : Proc α) (f : α → Proc β) (w : World) :
    (Proc.bind m f) w = match m w with
      | .ok a w1 => f a w1
      | .halt h w1 => .halt h w1 := rfl

@[simp] theorem emit_run (e : Event) (w : World) :
    emit e w = .ok () { w with trace := w.trace ++ [e] } := rfl

@[simp] theorem getGlobalState_run (w : World) :
    getGlobalState w = .ok w.globalState w := rfl

@[simp] theorem setGlobalState_run (f : GlobalState → GlobalState) (w : World) :
    setGlobalState f w = .ok () { w with globalState := f w.globalState } := rfl

@[simp] theorem getOpt_run (w : World) : getOpt w = .ok w.opt w := rfl

@[simp] theorem setOpt_run (f : ValeOptions → ValeOptions) (w : World) :
    setOpt f w = .ok () { w with opt := f w.opt } := rfl

@[simp] theorem halt_run {α : Type} (h : Halt) (w : World) :
    (halt h : Proc α) w = .halt h w := rfl

@[simp] theorem assert_true_run (expr : String) (w : World) :
    assert true expr w = .ok () w := rfl

@[simp] theorem assert_false_run (expr : String) (w : World) :
    assert false expr w = .halt (.assertFailed expr) w := rfl

@[simp] theorem emitAll_run (es : List Event) (w : World) :
    emitAll es w = .ok () { w with trace := w.trace ++ es } := rfl

theorem forEach_emit {α : Type} (f : α → Event) (xs : List α) :
    forEach xs (fun x => emit (f x)) = emitAll (xs.map f) := by
  funext w
  induction xs generalizing w with
  | nil => simp [forEach]
  | cons x xs ih => simp [forEach, ih]

theorem forEach_emitAll {α : Type} (g : α → List Event) (xs : List α) :
    forEach xs (fun x => emitAll (g x)) = emitAll (xs.flatMap g) := by
  funext w
  induction xs generalizing w with
  | nil => simp [forEach]
  | cons x xs ih => simp [forEach, ih]

theorem declareFunctions_run (fs : List (String × Function)) (mainL : Option LLVMValueRef)
    (w : World) :
    declareFunctions fs mainL w =
      .ok (lastMain fs mainL) { w with trace := w.trace ++ fs.map (fun p => Event.declareFunction p.2) } := by
  induction fs generalizing mainL w with
  | nil => simp [declareFunctions, lastMain]
  | cons p rest ih => simp [declareFunctions, lastMain, declareFunction, ih]

theorem initInternalExterns_run (w : World) :
    (initInternalExterns w).halted = none ∧
    (initInternalExterns w).trace = w.trace ++
      (internalExterns w.globalState.stringInnerStructL).map
        (fun d => .LLVMAddFunction w.globalState.mod d.1 d.2) := by
  simp [initInternalExterns, addFunction, LLVMAddFunction, Res.halted, Res.trace, Res.world,
    internalExterns, LLVMFunctionType, LLVMPointerType, LLVMVoidType, LLVMInt1Type,
    LLVMInt8Type, LLVMInt64Type]

set_option maxRecDepth 100000 in
set_option maxHeartbeats 4000000 in
theorem compileValeCode_run (env : Env) (filename : String) (w : World) (program : Program)
    (h : env.readProgram filename = some program) :
    (compileValeCode env filename w).halted =
      (match lastMain program.functions none with
        | none => some (.assertFailed "mainL != nullptr")
        | some _ => none) ∧
    (compileValeCode env filename w).world.opt = w.opt ∧
    (compileValeCode env filename w).world.globalState.mod = w.globalState.mod ∧
    (compileValeCode env filename w).world.globalState.machine = w.globalState.machine ∧
    (compileValeCode env filename w).trace =
      w.trace ++ (setupCalls w.globalState.mod ++ (declareCalls program ++
        match lastMain program.functions none with
        | none => []
        | some mainL =>
          translateCalls program ++
            ((entryBody w.globalState.mod mainL).map (.LLVMBuild { block := entryBlock w.globalState.mod })
              ++ [.LLVMDisposeBuilder { block := entryBlock w.globalState.mod }]))) := by
  simp only [compileValeCode, h, initInternalStructs, initInternalExterns, addFunction,
    LLVMAddFunction, LLVMAddGlobal, LLVMAppendBasicBlock, LLVMPositionBuilderAtEnd,
    declareStruct, declareInterface, translateStruct, translateInterface, declareEdge, translateEdge, translateFunction,
    forEach_emit, forEach_emitAll, declareFunctions_run, LLVMBuildCall, LLVMBuildLoad, LLVMBuildRet,
    bind_run, pure_run, emit_run, emitAll_run, getGlobalState_run, setGlobalState_run, assert_true_run,
    List.length_nil, List.nil_append, List.length_cons, List.length_append, beq_self_eq_true]
  cases hm : lastMain program.functions none <;>
  simp [Res.halted, Res.trace, Res.world, setupCalls, declareCalls, translateCalls, entryBody,
    internalExterns, entryFunction, entryBlock, entryFunctionType, stringInnerStruct,
    LLVMFunctionType, LLVMPointerType, LLVMVoidType, LLVMInt1Type, LLVMArrayType,
    LLVMInt8Type, LLVMInt64Type, LLVMConstInt, LLVMStructSetBody, LLVMStructCreateNamed]

theorem issued_eq {α : Type} (w : World) (r : Res α) (t : List Event)
    (h : r.trace = w.trace ++ t) : issued w r = t := by
  simp [issued, h]

theorem lastMain_eq_none (fs : List (String × Function)) (acc : Option LLVMValueRef) :
    lastMain fs acc = none ↔
      acc = none ∧ fs.any (fun p => p.2.prototype.name.name == "F(\"main\")") = false := by
  induction fs generalizing acc with
  | nil => simp [lastMain]
  | cons p rest ih =>
    simp only [lastMain, ih, List.any_cons]
    by_cases hp : (p.2.prototype.name.name == "F(\"main\")") = true
    · simp [hp]
    · simp [hp]

theorem lastMain_eq_some (fs : List (String × Function)) (acc : Option LLVMValueRef)
    (mainL : LLVMValueRef) (h : lastMain fs acc = some mainL) :
    acc = some mainL ∨
      ∃ p ∈ fs, p.2.prototype.name.name = "F(\"main\")" ∧ mainL = .declared p.2 := by
  induction fs generalizing acc with
  | nil => simpa [lastMain] using h
  | cons p rest ih =>
    simp only [lastMain] at h
    rcases ih _ h with h1 | ⟨q, hq, hn, hm⟩
    · by_cases hp : (p.2.prototype.name.name == "F(\"main\")") = true
      · simp only [hp, if_true, Option.some.injEq] at h1
        exact Or.inr ⟨p, List.mem_cons_self _ _, by simpa using hp, h1.symm⟩
      · simp only [hp] at h1
        exact Or.inl (by simpa using h1)
    · exact Or.inr ⟨q, List.mem_cons_of_mem _ hq, hn, hm⟩

theorem phaseCalls_append (a b : List Event) :
    phaseCalls (a ++ b) = phaseCalls a ++ phaseCalls b := by
  simp [phaseCalls]

theorem phaseCalls_setupCalls (mod : LLVMModuleRef) : phaseCalls (setupCalls mod) = [] := by
  simp [phaseCalls, setupCalls, internalExterns, Event.isPhaseCall]

theorem phaseCalls_of_all (t : List Event) (h : ∀ e ∈ t, e.isPhaseCall = true) :
    phaseCalls t = t := by
  simpa [phaseCalls] using h

theorem phaseCalls_of_none (t : List Event) (h : ∀ e ∈ t, e.isPhaseCall = false) :
    phaseCalls t = [] := by
  simpa [phaseCalls] using h

theorem isPhaseCall_declareCalls (program : Program) :
    ∀ e ∈ declareCalls program, e.isPhaseCall = true := by
  intro e he
  simp only [declareCalls, List.mem_append, List.mem_map, List.mem_flatMap] at he
  rcases he with ((((⟨_, _, rfl⟩ | ⟨_, _, rfl⟩) | ⟨_, _, rfl⟩) | ⟨_, _, rfl⟩) | ⟨_, _, _, _, rfl⟩) | ⟨_, _, rfl⟩ <;> rfl

theorem isPhaseCall_translateCalls (program : Program) :
    ∀ e ∈ translateCalls program, e.isPhaseCall = true := by
  intro e he
  simp only [translateCalls, List.mem_append, List.mem_map, List.mem_flatMap] at he
  rcases he with ⟨_, _, _, _, rfl⟩ | ⟨_, _, rfl⟩ <;> rfl

theorem phaseCalls_entry (b : LLVMBuilderRef) (is : List LLVMValueRef) :
    phaseCalls (is.map (.LLVMBuild b) ++ [.LLVMDisposeBuilder b]) = [] := by
  apply phaseCalls_of_none
  intro e he
  simp only [List.mem_append, List.mem_map, List.mem_singleton] at he
  rcases he with ⟨_, _, rfl⟩ | rfl <;> rfl

theorem compileValeCode_phaseCalls (env : Env) (filename : String) (w : World) (program : Program)
    (h : env.readProgram filename = some program) :
    phaseCalls (issued w (compileValeCode env filename w)) =
      declareCalls program ++ (if hasMain program then translateCalls program else []) := by
  rw [issued_eq w _ _ (compileValeCode_run env filename w program h).2.2.2.2]
  rw [phaseCalls_append, phaseCalls_append, phaseCalls_setupCalls,
    phaseCalls_of_all _ (isPhaseCall_declareCalls program)]
  cases hm : lastMain program.functions none with
  | none =>
    have := (lastMain_eq_none _ _).1 hm
    simp [hasMain, this.2, phaseCalls]
  | some mainL =>
    have hne : hasMain program = true := by
      by_contra hc
      have : lastMain program.functions none = none :=
        (lastMain_eq_none _ _).2 ⟨rfl, by simpa [hasMain] using hc⟩
      simp [this] at hm
    simp only [hne, if_true, List.nil_append]
    rw [phaseCalls_append, phaseCalls_entry, phaseCalls_of_all _ (isPhaseCall_translateCalls program)]
    simp

theorem rankedUpTo_nil (n : Nat) : RankedUpTo n [] := by
  simp [RankedUpTo]

theorem pairwise_rank_of_const (t : List Event) (n : Nat) (h : ∀ e ∈ t, e.phaseRank = n) :
    t.Pairwise (fun a b => a.phaseRank ≤ b.phaseRank) := by
  induction t with
  | nil => exact List.Pairwise.nil
  | cons x xs ih =>
    refine List.Pairwise.cons ?_ (ih (fun e he => h e (List.mem_cons_of_mem _ he)))
    intro y hy
    rw [h x (List.mem_cons_self _ _), h y (List.mem_cons_of_mem _ hy)]

theorem rankedUpTo_append (n m : Nat) (hnm : n ≤ m) (a b : List Event) (ha : RankedUpTo n a)
    (hb : ∀ e ∈ b, e.phaseRank = m) : RankedUpTo m (a ++ b) := by
  refine ⟨List.pairwise_append.2 ⟨ha.1, ?_, ?_⟩, ?_⟩
  · exact pairwise_rank_of_const b m hb
  · intro x hx y hy
    rw [hb y hy]
    exact Nat.le_trans (ha.2 x hx) hnm
  · intro e he
    rcases List.mem_append.1 he with h | h
    · exact Nat.le_trans (ha.2 e h) hnm
    · exact Nat.le_of_eq (hb e h)

theorem rankedUpTo_declareCalls (program : Program) : RankedUpTo 5 (declareCalls program) := by
  have h0 : ∀ e ∈ program.structs.map (fun p => Event.declareStruct p.2), e.phaseRank = 0 := by
    intro e he
    obtain ⟨_, _, rfl⟩ := List.mem_map.1 he
    rfl
  have h1 : ∀ e ∈ program.interfaces.map (fun p => Event.declareInterface p.2),
      e.phaseRank = 1 := by
    intro e he
    obtain ⟨_, _, rfl⟩ := List.mem_map.1 he
    rfl
  have h2 : ∀ e ∈ program.structs.map (fun p => Event.translateStruct p.2),
      e.phaseRank = 2 := by
    intro e he
    obtain ⟨_, _, rfl⟩ := List.mem_map.1 he
    rfl
  have h3 : ∀ e ∈ program.interfaces.map (fun p => Event.translateInterface p.2),
      e.phaseRank = 3 := by
    intro e he
    obtain ⟨_, _, rfl⟩ := List.mem_map.1 he
    rfl
  have h4 : ∀ e ∈ program.structs.flatMap (fun p => p.2.edges.map Event.declareEdge),
      e.phaseRank = 4 := by
    intro e he
    obtain ⟨_, _, he2⟩ := List.mem_flatMap.1 he
    obtain ⟨_, _, rfl⟩ := List.mem_map.1 he2
    rfl
  have h5 : ∀ e ∈ program.functions.map (fun p => Event.declareFunction p.2),
      e.phaseRank = 5 := by
    intro e he
    obtain ⟨_, _, rfl⟩ := List.mem_map.1 he
    rfl
  have s0 := rankedUpTo_append 0 0 (Nat.le_refl 0) [] _ (rankedUpTo_nil 0) h0
  rw [List.nil_append] at s0
  exact rankedUpTo_append 4 5 (by decide) _ _
    (rankedUpTo_append 3 4 (by decide) _ _
      (rankedUpTo_append 2 3 (by decide) _ _
        (rankedUpTo_append 1 2 (by decide) _ _
          (rankedUpTo_append 0 1 (by decide) _ _ s0 h1) h2) h3) h4) h5

theorem rankedUpTo_phaseOrder (program : Program) :
    RankedUpTo 7 (declareCalls program ++ translateCalls program) := by
  have h6 : ∀ e ∈ program.structs.flatMap (fun p => p.2.edges.map Event.translateEdge),
      e.phaseRank = 6 := by
    intro e he
    obtain ⟨_, _, he2⟩ := List.mem_flatMap.1 he
    obtain ⟨_, _, rfl⟩ := List.mem_map.1 he2
    rfl
  have h7 : ∀ e ∈ program.functions.map (fun p => Event.translateFunction p.2),
      e.phaseRank = 7 := by
    intro e he
    obtain ⟨_, _, rfl⟩ := List.mem_map.1 he
    rfl
  unfold translateCalls
  rw [← List.append_assoc]
  exact rankedUpTo_append 6 7 (by decide) _ _
    (rankedUpTo_append 5 6 (by decide) _ _ (rankedUpTo_declareCalls program) h6) h7

theorem pairwise_rank_phases (program : Program) (b : Bool) :
    (declareCalls program ++ (if b then translateCalls program else [])).Pairwise
      (fun x y => x.phaseRank ≤ y.phaseRank) := by
  cases b
  · simpa using (rankedUpTo_declareCalls program).1
  · simpa using (rankedUpTo_phaseOrder program).1

theorem lastMain_of_hasMain (program : Program) (hm : hasMain program = true) :
    ∃ f, (∃ name, (name, f) ∈ program.functions) ∧ f.prototype.name.name = "F(\"main\")" ∧
      lastMain program.functions none = some (.declared f) := by
  cases hl : lastMain program.functions none with
  | none =>
    have := ((lastMain_eq_none _ _).1 hl).2
    simp [hasMain, this] at hm
  | some mainL =>
    rcases lastMain_eq_some _ _ _ hl with h | ⟨p, hp, hn, rfl⟩
    · simp at h
    · exact ⟨p.2, ⟨p.1, hp⟩, hn, rfl⟩

theorem lastMain_of_not_hasMain (program : Program) (hm : hasMain program = false) :
    lastMain program.functions none = none :=
  (lastMain_eq_none _ _).2 ⟨rfl, by simpa [hasMain] using hm⟩

theorem compileValeCode_issued_main (env : Env) (filename : String) (w : World)
    (program : Program) (mainL : LLVMValueRef) (h : env.readProgram filename = some program)
    (hl : lastMain program.functions none = some mainL) :
    (compileValeCode env filename w).halted = none ∧
    issued w (compileValeCode env filename w) =
      setupCalls w.globalState.mod ++ (declareCalls program ++ (translateCalls program ++
        ((entryBody w.globalState.mod mainL).map
            (.LLVMBuild { block := entryBlock w.globalState.mod })
          ++ [.LLVMDisposeBuilder { block := entryBlock w.globalState.mod }]))) := by
  have hr := compileValeCode_run env filename w program h
  rw [hl] at hr
  exact ⟨hr.1, issued_eq w _ _ hr.2.2.2.2⟩

theorem compileValeCode_issued_noMain (env : Env) (filename : String) (w : World)
    (program : Program) (h : env.readProgram filename = some program)
    (hl : lastMain program.functions none = none) :
    (compileValeCode env filename w).halted = some (.assertFailed "mainL != nullptr") ∧
    issued w (compileValeCode env filename w) =
      setupCalls w.globalState.mod ++ declareCalls program := by
  have hr := compileValeCode_run env filename w program h
  rw [hl] at hr
  refine ⟨hr.1, ?_⟩
  have := issued_eq w _ _ hr.2.2.2.2
  simpa using this

theorem build?_of_isPhaseCall (e : Event) (h : e.isPhaseCall = true) : e.build? = none := by
  cases e <;> simp_all [Event.isPhaseCall, Event.build?]

theorem addedFunction?_of_isPhaseCall (e : Event) (h : e.isPhaseCall = true) :
    e.addedFunction? = none := by
  cases e <;> simp_all [Event.isPhaseCall, Event.addedFunction?]

theorem builds_append (a b : List Event) : builds (a ++ b) = builds a ++ builds b := by
  simp [builds]

theorem addedFunctions_append (a b : List Event) :
    addedFunctions (a ++ b) = addedFunctions a ++ addedFunctions b := by
  simp [addedFunctions]

theorem builds_of_phaseCalls (t : List Event) (h : ∀ e ∈ t, e.isPhaseCall = true) :
    builds t = [] := by
  simp only [builds, List.filterMap_eq_nil_iff]
  exact fun e he => build?_of_isPhaseCall e (h e he)

theorem addedFunctions_of_phaseCalls (t : List Event) (h : ∀ e ∈ t, e.isPhaseCall = true) :
    addedFunctions t = [] := by
  simp only [addedFunctions, List.filterMap_eq_nil_iff]
  exact fun e he => addedFunction?_of_isPhaseCall e (h e he)

theorem builds_setupCalls (mod : LLVMModuleRef) : builds (setupCalls mod) = [] := by
  simp [builds, setupCalls, internalExterns, Event.build?]

theorem builds_entry (b : LLVMBuilderRef) (is : List LLVMValueRef) :
    builds (is.map (.LLVMBuild b) ++ [.LLVMDisposeBuilder b]) = is.map (fun i => (b, i)) := by
  induction is with
  | nil => simp [builds, Event.build?]
  | cons i is ih =>
    simp only [builds, List.map_cons, List.cons_append, List.filterMap_cons, Event.build?] at ih ⊢
    rw [ih]

theorem addedFunctions_entry (b : LLVMBuilderRef) (is : List LLVMValueRef) :
    addedFunctions (is.map (.LLVMBuild b) ++ [.LLVMDisposeBuilder b]) = [] := by
  simp only [addedFunctions, List.filterMap_eq_nil_iff]
  intro e he
  simp only [List.mem_append, List.mem_map, List.mem_singleton] at he
  rcases he with ⟨_, _, rfl⟩ | rfl <;> rfl

theorem addedFunctions_map (mod : LLVMModuleRef) (l : List (String × LLVMTypeRef)) :
    addedFunctions (l.map (fun d => .LLVMAddFunction mod d.1 d.2)) = l := by
  induction l with
  | nil => rfl
  | cons d l ih =>
    simp only [addedFunctions, List.map_cons, List.filterMap_cons, Event.addedFunction?] at ih ⊢
    rw [ih]

theorem addedFunctions_setupCalls (mod : LLVMModuleRef) :
    addedFunctions (setupCalls mod) = ("main", entryFunctionType) :: internalExterns stringInnerStruct := by
  unfold setupCalls
  rw [addedFunctions_append, addedFunctions_map]
  simp [addedFunctions, Event.addedFunction?]

theorem internalExterns_names (s : LLVMTypeRef) :
    (internalExterns s).map Prod.fst = internalExternNames := by
  simp [internalExterns, internalExternNames]

theorem nodup_names : ("main" :: internalExternNames).Nodup := by
  decide

theorem compileValeCode_addedFunctions (env : Env) (filename : String) (w : World)
    (program : Program) (h : env.readProgram filename = some program) :
    addedFunctions (issued w (compileValeCode env filename w)) =
      ("main", entryFunctionType) :: internalExterns stringInnerStruct := by
  cases hl : lastMain program.functions none with
  | none =>
    rw [(compileValeCode_issued_noMain env filename w program h hl).2, addedFunctions_append,
      addedFunctions_setupCalls,
      addedFunctions_of_phaseCalls _ (isPhaseCall_declareCalls program), List.append_nil]
  | some mainL =>
    rw [(compileValeCode_issued_main env filename w program mainL h hl).2, addedFunctions_append,
      addedFunctions_append, addedFunctions_append, addedFunctions_setupCalls,
      addedFunctions_of_phaseCalls _ (isPhaseCall_declareCalls program),
      addedFunctions_of_phaseCalls _ (isPhaseCall_translateCalls program),
      addedFunctions_entry]
    simp

theorem compileValeCode_builds (env : Env) (filename : String) (w : World)
    (program : Program) (mainL : LLVMValueRef) (h : env.readProgram filename = some program)
    (hl : lastMain program.functions none = some mainL) :
    builds (issued w (compileValeCode env filename w)) =
      (entryBody w.globalState.mod mainL).map
        (fun i => ({ block := entryBlock w.globalState.mod }, i)) := by
  rw [(compileValeCode_issued_main env filename w program mainL h hl).2, builds_append,
    builds_append, builds_append, builds_setupCalls,
    builds_of_phaseCalls _ (isPhaseCall_declareCalls program),
    builds_of_phaseCalls _ (isPhaseCall_translateCalls program), builds_entry]
  simp

theorem serializeIR_run (env : Env) (w : World) :
    generateModule.serializeIR env w =
      .ok () { w with trace := w.trace ++ serializeIRCalls env w.opt w.globalState.mod } := by
  cases hp : w.opt.print_llvmir <;> cases he : env.printModulePre <;>
    simp [generateModule.serializeIR, serializeIRCalls, hp, he]

theorem verifyIR_run (env : Env) (w : World) (hv : verifyPasses env w.opt = true) :
    generateModule.verifyIR env w =
      .ok () { w with trace := w.trace ++ verifyIRCalls env w.opt w.globalState.mod } := by
  cases hp : w.opt.verify
  · simp [generateModule.verifyIR, verifyIRCalls, hp]
  · rcases he : env.verifyModule with _ | _ | error
    · simp [verifyPasses, hp, he] at hv
    · simp [generateModule.verifyIR, verifyIRCalls, hp, he]
    · have : error = "" := by simpa [verifyPasses, hp, he] using hv
      subst this
      simp [generateModule.verifyIR, verifyIRCalls, hp, he]

theorem optimizeIR_run (w : World) :
    generateModule.optimizeIR w =
      .ok () { w with trace := w.trace ++ optimizeIRCalls w.opt w.globalState.mod } := by
  cases hp : w.opt.release <;>
    simp [generateModule.optimizeIR, optimizeIRCalls, passList, hp]

theorem serializeOptimizedIR_run (env : Env) (w : World) :
    generateModule.serializeOptimizedIR env w =
      .ok () { w with trace :=
        w.trace ++ serializeOptimizedIRCalls env w.opt w.globalState.mod } := by
  cases hp : w.opt.print_llvmir <;> cases he : env.printModulePost <;>
    simp [generateModule.serializeOptimizedIR, serializeOptimizedIRCalls, hp, he]

theorem generateOutput_run (env : Env) (objpath : String) (asmpath : Option String)
    (mod : LLVMModuleRef) (triple : Option String) (machine : LLVMTargetMachineRef)
    (w : World) :
    generateOutput env objpath asmpath mod triple machine w =
      .ok () { w with trace :=
        w.trace ++ generateOutputCalls env objpath asmpath mod triple machine } := by
  cases asmpath <;> cases ha : env.emitAsm <;> cases ho : env.emitObj <;>
    simp [generateOutput, generateOutputCalls, emitAsmCalls, emitObjCalls, ha, ho]

theorem transformIR_run (env : Env) (w : World) :
    generateModule.transformIR env w =
      .ok () { w with trace :=
        w.trace ++ transformIRCalls env w.opt w.globalState.mod w.globalState.machine } := by
  cases hm : w.globalState.machine with
  | none => simp [generateModule.transformIR, transformIRCalls, hm]
  | some machine =>
    simp [generateModule.transformIR, transformIRCalls, hm, generateOutput_run]

theorem compileValeCode_frame (env : Env) (filename : String) (w : World) :
    (compileValeCode env filename w).world.opt = w.opt ∧
    (compileValeCode env filename w).world.globalState.mod = w.globalState.mod ∧
    (compileValeCode env filename w).world.globalState.machine = w.globalState.machine := by
  cases h : env.readProgram filename with
  | none => simp [compileValeCode, h, Res.world]
  | some program =>
    have hr := compileValeCode_run env filename w program h
    exact ⟨hr.2.1, hr.2.2.1, hr.2.2.2.1⟩

theorem createModule_frame (env : Env) (w : World) :
    (createModule env w).world.opt = w.opt ∧
    (createModule env w).world.globalState.mod = createdModule w.opt ∧
    (createModule env w).world.globalState.machine = w.globalState.machine := by
  cases hrel : w.opt.release
  · simp only [createModule, bind_run, getOpt_run, emit_run, setGlobalState_run,
      getGlobalState_run, hrel, Bool.not_false, if_true]
    generalize hw1 : ({ opt := w.opt, globalState := _, trace := _ } : World) = w1
    have hf := compileValeCode_frame env w.opt.srcpath w1
    have h1 : w1.opt = w.opt := by rw [← hw1]
    have h2 : w1.globalState.mod = createdModule w.opt := by rw [← hw1]; rfl
    have h3 : w1.globalState.machine = w.globalState.machine := by rw [← hw1]
    cases hc : compileValeCode env w.opt.srcpath w1 with
    | ok a w2 =>
      simp only [hc, Res.world] at hf
      simp [hc, Res.world, hf, h1, h2, h3, hrel]
    | halt e w2 =>
      simp only [hc, Res.world] at hf
      simp [hc, Res.world, hf, h1, h2, h3]
  · simp only [createModule, bind_run, getOpt_run, emit_run, setGlobalState_run,
      getGlobalState_run, hrel, Bool.not_true, pure_run]
    generalize hw1 : ({ opt := w.opt, globalState := _, trace := _ } : World) = w1
    have hf := compileValeCode_frame env w.opt.srcpath w1
    have h1 : w1.opt = w.opt := by rw [← hw1]
    have h2 : w1.globalState.mod = createdModule w.opt := by rw [← hw1]; rfl
    have h3 : w1.globalState.machine = w.globalState.machine := by rw [← hw1]
    cases hc : compileValeCode env w.opt.srcpath w1 with
    | ok a w2 =>
      simp only [hc, Res.world] at hf
      simp [hc, Res.world, hf, h1, h2, h3, hrel]
    | halt e w2 =>
      simp only [hc, Res.world] at hf
      simp [hc, Res.world, hf, h1, h2, h3]

theorem generateModule_run (env : Env) (w : World)
    (hc : (createModule env w).halted = none) (hv : verifyPasses env w.opt = true) :
    (generateModule env w).halted = none ∧
    (generateModule env w).trace =
      (createModule env w).trace ++ backendCalls env w.opt w.globalState.machine := by
  have hf := createModule_frame env w
  cases hcm : createModule env w with
  | halt e w1 => simp [hcm, Res.halted] at hc
  | ok a w1 =>
    simp only [hcm, Res.world] at hf
    obtain ⟨h1, h2, h3⟩ := hf
    have hv1 : verifyPasses env w1.opt = true := by rw [h1]; exact hv
    simp only [generateModule, bind_run, hcm, serializeIR_run, optimizeIR_run,
      serializeOptimizedIR_run, transformIR_run, getGlobalState_run, emit_run]
    rw [verifyIR_run env _ (by simpa using hv1)]
    simp [Res.halted, Res.trace, Res.world, backendCalls, h1, h2, h3]

theorem createMachine_failure (env : Env) (w : World) (msg : String)
    (hf : setupFailure env w.opt = some msg) :
    (createMachine env w).halted = some (.exit .LlvmSetupFailed) ∧
    (createMachine env w).trace =
      w.trace ++ (initializeX86Calls ++ [.errorExit .LlvmSetupFailed msg]) := by
  unfold setupFailure at hf
  cases hl : env.LLVMGetTargetFromTriple (targetTriple env w.opt) with
  | error err =>
    simp only [hl, Option.some.injEq] at hf
    subst hf
    cases ht : w.opt.triple <;>
      simp only [targetTriple, ht, Option.getD_none, Option.getD_some] at hl <;>
      simp [createMachine, errorExit, ht, hl, Res.halted, Res.trace, Res.world,
        initializeX86Calls]
  | ok target =>
    simp only [hl] at hf
    cases hm : env.LLVMCreateTargetMachine (requestedMachine env w.opt target) with
    | true => simp [hm] at hf
    | false =>
      simp only [hm, Bool.false_eq_true, if_false, Option.some.injEq] at hf
      subst hf
      cases ht : w.opt.triple <;> cases hc : w.opt.cpu <;> cases hfe : w.opt.features <;>
        simp only [targetTriple, requestedMachine, ht, hc, hfe, Option.getD_none,
          Option.getD_some] at hl hm <;>
        simp only [Bool.or_eq_true] at hm <;>
        simp [createMachine, errorExit, ht, hc, hfe, hl, hm, Res.halted, Res.trace, Res.world,
          initializeX86Calls]

theorem setup_failure (env : Env) (w : World) (msg : String)
    (hf : setupFailure env w.opt = some msg) :
    (setup env w).halted = some (.exit .LlvmSetupFailed) ∧
    (setup env w).trace =
      w.trace ++ (initializeX86Calls ++ [.errorExit .LlvmSetupFailed msg]) := by
  have h := createMachine_failure env w msg hf
  cases hc : createMachine env w with
  | ok a w1 => simp [hc, Res.halted] at h
  | halt e w1 =>
    simp only [hc, Res.halted, Res.trace, Res.world, Option.some.injEq] at h
    simp [setup, hc, Res.halted, Res.trace, Res.world, h.1, h.2]

theorem main_reaches_setup (env : Env) (argv : List String) (w : World)
    (hok : 0 < (env.valeOptSet w.opt argv).1)
    (hargs : 2 ≤ (env.valeOptSet w.opt argv).2.2.length) :
    main env argv w =
      (do setup env; generateModule env; closeGlobalState : Proc Unit)
        { w with opt := mainOptions env w.opt argv } := by
  have h1 : ¬ (env.valeOptSet w.opt argv).1 ≤ 0 := by omega
  have h2 : ¬ (env.valeOptSet w.opt argv).2.2.length < 2 := by omega
  simp [main, h1, h2, mainOptions]

theorem initInternalExterns_table (w : World) :
    (initInternalExterns w).halted = none ∧
    addedFunctions (issued w (initInternalExterns w)) =
      internalExterns w.globalState.stringInnerStructL := by
  have h := initInternalExterns_run w
  refine ⟨h.1, ?_⟩
  rw [issued_eq w _ _ h.2, addedFunctions_map]

theorem createModule_run (env : Env) (w : World) (program : Program) (mainL : LLVMValueRef)
    (hp : env.readProgram w.opt.srcpath = some program)
    (hl : lastMain program.functions none = some mainL) :
    (createModule env w).halted = none ∧
    (createModule env w).trace = w.trace ++ createModuleCalls w.opt program mainL := by
  cases hrel : w.opt.release
  · simp only [createModule, bind_run, getOpt_run, emit_run, setGlobalState_run,
      getGlobalState_run, hrel, Bool.not_false, if_true]
    generalize hw1 : ({ opt := w.opt, globalState := _, trace := _ } : World) = w1
    have hr := compileValeCode_run env w.opt.srcpath w1 program hp
    rw [hl] at hr
    have h1 : w1.opt = w.opt := by rw [← hw1]
    have h2 : w1.globalState.mod = createdModule w.opt := by rw [← hw1]; rfl
    have h4 : w1.trace = w.trace ++ [.LLVMModuleCreateWithNameInContext w.opt.srcDirAndNameNoExt,
        .LLVMCreateDIBuilder (createdModule w.opt), .LLVMDIBuilderCreateFile "main.vale" ".",
        .LLVMDIBuilderCreateCompileUnit "Vale compiler"] := by
      rw [← hw1]; simp [createdModule]
    cases hc : compileValeCode env w.opt.srcpath w1 with
    | halt e w2 => simp [hc, Res.halted] at hr
    | ok a w2 =>
      simp only [hc, Res.world, Res.trace] at hr
      simp [hc, Res.halted, Res.trace, Res.world, hr.2.1, hr.2.2.2.2, h1, h2, h4, hrel,
        createModuleCalls, compileValeCodeCalls]
  · simp only [createModule, bind_run, getOpt_run, emit_run, setGlobalState_run,
      getGlobalState_run, hrel, Bool.not_true, pure_run]
    generalize hw1 : ({ opt := w.opt, globalState := _, trace := _ } : World) = w1
    have hr := compileValeCode_run env w.opt.srcpath w1 program hp
    rw [hl] at hr
    have h1 : w1.opt = w.opt := by rw [← hw1]
    have h2 : w1.globalState.mod = createdModule w.opt := by rw [← hw1]; rfl
    have h4 : w1.trace =
        w.trace ++ [.LLVMModuleCreateWithNameInContext w.opt.srcDirAndNameNoExt] := by
      rw [← hw1]
    cases hc : compileValeCode env w.opt.srcpath w1 with
    | halt e w2 => simp [hc, Res.halted] at hr
    | ok a w2 =>
      simp only [hc, Res.world, Res.trace] at hr
      simp [hc, Res.halted, Res.trace, Res.world, hr.2.1, hr.2.2.2.2, h1, h2, h4, hrel,
        createModuleCalls, compileValeCodeCalls]

theorem generateModule_issued (env : Env) (w : World) (program : Program)
    (mainL : LLVMValueRef)
    (hp : env.readProgram w.opt.srcpath = some program)
    (hl : lastMain program.functions none = some mainL)
    (hv : verifyPasses env w.opt = true) :
    (generateModule env w).halted = none ∧
    issued w (generateModule env w) =
      createModuleCalls w.opt program mainL ++ backendCalls env w.opt w.globalState.machine := by
  have hc := createModule_run env w program mainL hp hl
  have hg := generateModule_run env w hc.1 hv
  refine ⟨hg.1, issued_eq w _ _ ?_⟩
  rw [hg.2, hc.2, List.append_assoc]

theorem isPassManagerCall_of_isPhaseCall (e : Event) (h : e.isPhaseCall = true) :
    e.isPassManagerCall = false := by
  cases e <;> simp_all [Event.isPhaseCall, Event.isPassManagerCall]

theorem noPassManager_createModuleCalls (opt : ValeOptions) (program : Program)
    (mainL : LLVMValueRef) :
    ∀ e ∈ createModuleCalls opt program mainL, e.isPassManagerCall = false := by
  intro e he
  simp only [createModuleCalls, compileValeCodeCalls, List.mem_cons, List.mem_append] at he
  rcases he with rfl | h | (h | h | h | h | h) | h
  · rfl
  · cases hr : opt.release <;> simp [hr] at h
    rcases h with rfl | rfl | rfl <;> rfl
  · simp only [setupCalls, internalExterns, List.mem_append, List.mem_cons, List.mem_map,
      List.map_cons, List.map_nil, List.mem_nil_iff, or_false] at h
    rcases h with h | h
    · rcases h with rfl | rfl | rfl | rfl | rfl | rfl | rfl | rfl | rfl | rfl | rfl <;> rfl
    · rcases h with rfl | rfl | rfl | rfl | rfl | rfl | rfl | rfl | rfl | rfl | rfl | rfl | rfl
        | rfl | rfl | rfl | rfl | rfl | rfl | rfl | rfl | rfl | rfl | rfl | rfl <;> rfl
  · exact isPassManagerCall_of_isPhaseCall e (isPhaseCall_declareCalls program e h)
  · exact isPassManagerCall_of_isPhaseCall e (isPhaseCall_translateCalls program e h)
  · obtain ⟨_, _, rfl⟩ := List.mem_map.1 h
    rfl
  · simp at h
    subst h
    rfl
  · cases hr : opt.release <;> simp [hr] at h
    subst h
    rfl

theorem noPassManager_serializeIRCalls (env : Env) (opt : ValeOptions) (mod : LLVMModuleRef) :
    ∀ e ∈ serializeIRCalls env opt mod, e.isPassManagerCall = false := by
  unfold serializeIRCalls
  cases opt.print_llvmir <;> cases env.printModulePre <;> simp [Event.isPassManagerCall]

theorem noPassManager_verifyIRCalls (env : Env) (opt : ValeOptions) (mod : LLVMModuleRef) :
    ∀ e ∈ verifyIRCalls env opt mod, e.isPassManagerCall = false := by
  unfold verifyIRCalls
  cases opt.verify
  · simp
  · rcases env.verifyModule with _ | _ | _ <;> simp [Event.isPassManagerCall]

theorem noPassManager_serializeOptimizedIRCalls (env : Env) (opt : ValeOptions)
    (mod : LLVMModuleRef) :
    ∀ e ∈ serializeOptimizedIRCalls env opt mod, e.isPassManagerCall = false := by
  unfold serializeOptimizedIRCalls
  cases opt.print_llvmir <;> cases env.printModulePost <;> simp [Event.isPassManagerCall]

theorem noPassManager_transformIRCalls (env : Env) (opt : ValeOptions) (mod : LLVMModuleRef)
    (machine : Option LLVMTargetMachineRef) :
    ∀ e ∈ transformIRCalls env opt mod machine, e.isPassManagerCall = false := by
  unfold transformIRCalls generateOutputCalls emitAsmCalls emitObjCalls
  cases machine <;> cases opt.print_asm <;> cases env.emitAsm <;> cases env.emitObj <;>
    simp [Event.isPassManagerCall]

theorem addedPasses_of_noPassManager (t : List Event)
    (h : ∀ e ∈ t, e.isPassManagerCall = false) : addedPasses t = [] := by
  simp only [addedPasses, List.filterMap_eq_nil_iff]
  intro e he
  have := h e he
  cases e <;> simp_all [Event.isPassManagerCall, Event.addedPass?]

theorem countRun_of_noPassManager (t : List Event)
    (h : ∀ e ∈ t, e.isPassManagerCall = false) : t.countP Event.isRunPassManager = 0 := by
  rw [List.countP_eq_zero]
  intro e he
  have := h e he
  cases e <;> simp_all [Event.isPassManagerCall, Event.isRunPassManager]

theorem addedPasses_append (a b : List Event) :
    addedPasses (a ++ b) = addedPasses a ++ addedPasses b := by
  simp [addedPasses]

theorem addedPasses_optimizeIRCalls (opt : ValeOptions) (mod : LLVMModuleRef) :
    addedPasses (optimizeIRCalls opt mod) = passList opt.release := by
  cases hr : opt.release <;> simp [optimizeIRCalls, passList, addedPasses, Event.addedPass?, hr]

theorem countRun_optimizeIRCalls (opt : ValeOptions) (mod : LLVMModuleRef) :
    (optimizeIRCalls opt mod).countP Event.isRunPassManager = 1 := by
  cases hr : opt.release <;>
    simp [optimizeIRCalls, passList, Event.isRunPassManager, hr, List.countP_cons]

theorem lastMain_pointProgram :
    lastMain pointProgram.functions none = some (.declared mainFunction) := by
  rfl

theorem filterMap_phaseCalls {β : Type} (f : Event → Option β)
    (hf : ∀ e, e.isPhaseCall = false → f e = none) (t : List Event) :
    (phaseCalls t).filterMap f = t.filterMap f := by
  induction t with
  | nil => rfl
  | cons e t ih =>
    cases he : e.isPhaseCall
    · simp only [phaseCalls, List.filter_cons, he, Bool.false_eq_true, if_false,
        List.filterMap_cons, hf e he] at ih ⊢
      exact ih
    · simp only [phaseCalls, List.filter_cons, he, if_true, List.filterMap_cons] at ih ⊢
      rw [ih]

theorem filterMap_const_none {α β : Type} (l : List α) :
    l.filterMap (fun _ => (none : Option β)) = [] := by
  induction l with
  | nil => rfl
  | cons a l ih => simp [List.filterMap_cons]

theorem filterMap_some_fun {α β : Type} (g : α → β) (l : List α) :
    l.filterMap (fun x => some (g x)) = l.map g := by
  induction l with
  | nil => rfl
  | cons a l ih => simp [List.filterMap_cons, ih]

theorem flatMap_const_nil {α β : Type} (l : List α) :
    l.flatMap (fun _ => ([] : List β)) = [] := by
  induction l with
  | nil => rfl
  | cons a l ih => simp [List.flatMap_cons]

theorem mem_before_of_rank_lt (pre post : List Event) (x y : Event)
    (hp : (pre ++ x :: post).Pairwise (fun a b => a.phaseRank ≤ b.phaseRank))
    (hy : y ∈ pre ++ x :: post) (hlt : y.phaseRank < x.phaseRank) : y ∈ pre := by
  rcases List.mem_append.1 hy with h | h
  · exact h
  · exfalso
    rcases List.mem_cons.1 h with h | h
    · subst h
      omega
    · have := (List.pairwise_cons.1 (List.pairwise_append.1 hp).2.1).1 y h
      omega

theorem projection_issued {β : Type} (f : Event → Option β)
    (hf : ∀ e, e.isPhaseCall = false → f e = none) (env : Env) (filename : String) (w : World)
    (program : Program) (h : env.readProgram filename = some program) :
    (issued w (compileValeCode env filename w)).filterMap f =
      (phaseCallsOf program).filterMap f := by
  rw [← filterMap_phaseCalls f hf, compileValeCode_phaseCalls env filename w program h]
  rfl

theorem declaredStructs_phaseCallsOf (program : Program) :
    declaredStructs (phaseCallsOf program) = program.structs.map Prod.snd := by
  cases hm : hasMain program <;>
  simp [phaseCallsOf, hm, declaredStructs, declareCalls, translateCalls, List.filterMap_append,
    List.filterMap_map, List.filterMap_flatMap, Function.comp_def, Event.declaredStruct?,
    filterMap_const_none, filterMap_some_fun, flatMap_const_nil]

theorem translatedStructs_phaseCallsOf (program : Program) :
    translatedStructs (phaseCallsOf program) = program.structs.map Prod.snd := by
  cases hm : hasMain program <;>
  simp [phaseCallsOf, hm, translatedStructs, declareCalls, translateCalls,
    List.filterMap_append, List.filterMap_map, List.filterMap_flatMap, Function.comp_def,
    Event.translatedStruct?, filterMap_const_none, filterMap_some_fun, flatMap_const_nil]

theorem declaredInterfaces_phaseCallsOf (program : Program) :
    declaredInterfaces (phaseCallsOf program) = program.interfaces.map Prod.snd := by
  cases hm : hasMain program <;>
  simp [phaseCallsOf, hm, declaredInterfaces, declareCalls, translateCalls,
    List.filterMap_append, List.filterMap_map, List.filterMap_flatMap, Function.comp_def,
    Event.declaredInterface?, filterMap_const_none, filterMap_some_fun, flatMap_const_nil]

theorem translatedInterfaces_phaseCallsOf (program : Program) :
    translatedInterfaces (phaseCallsOf program) = program.interfaces.map Prod.snd := by
  cases hm : hasMain program <;>
  simp [phaseCallsOf, hm, translatedInterfaces, declareCalls, translateCalls,
    List.filterMap_append, List.filterMap_map, List.filterMap_flatMap, Function.comp_def,
    Event.translatedInterface?, filterMap_const_none, filterMap_some_fun, flatMap_const_nil]

theorem declaredEdges_phaseCallsOf (program : Program) :
    declaredEdges (phaseCallsOf program) = allEdges program := by
  cases hm : hasMain program <;>
  simp [phaseCallsOf, hm, declaredEdges, declareCalls, translateCalls, allEdges,
    List.filterMap_append, List.filterMap_map, List.filterMap_flatMap, Function.comp_def,
    Event.declaredEdge?, filterMap_const_none, filterMap_some_fun, flatMap_const_nil]

theorem translatedEdges_phaseCallsOf (program : Program) :
    translatedEdges (phaseCallsOf program) =
      if hasMain program then allEdges program else [] := by
  cases hm : hasMain program <;>
  simp [phaseCallsOf, hm, translatedEdges, declareCalls, translateCalls, allEdges,
    List.filterMap_append, List.filterMap_map, List.filterMap_flatMap, Function.comp_def,
    Event.translatedEdge?, filterMap_const_none, filterMap_some_fun, flatMap_const_nil]

theorem declaredFunctions_phaseCallsOf (program : Program) :
    declaredFunctions (phaseCallsOf program) = program.functions.map Prod.snd := by
  cases hm : hasMain program <;>
  simp [phaseCallsOf, hm, declaredFunctions, declareCalls, translateCalls,
    List.filterMap_append, List.filterMap_map, List.filterMap_flatMap, Function.comp_def,
    Event.declaredFunction?, filterMap_const_none, filterMap_some_fun, flatMap_const_nil]

theorem translatedFunctions_phaseCallsOf (program : Program) :
    translatedFunctions (phaseCallsOf program) =
      if hasMain program then program.functions.map Prod.snd else [] := by
  cases hm : hasMain program <;>
  simp [phaseCallsOf, hm, translatedFunctions, declareCalls, translateCalls,
    List.filterMap_append, List.filterMap_map, List.filterMap_flatMap, Function.comp_def,
    Event.translatedFunction?, filterMap_const_none, filterMap_some_fun, flatMap_const_nil]

theorem declareStruct_mem (t : List Event) (s : StructDefinition) (h : s ∈ declaredStructs t) :
    Event.declareStruct s ∈ t := by
  obtain ⟨e, he, hs⟩ := List.mem_filterMap.1 h
  cases e <;> simp [Event.declaredStruct?] at hs
  subst hs
  exact he

theorem declareInterface_mem (t : List Event) (s : InterfaceDefinition)
    (h : s ∈ declaredInterfaces t) : Event.declareInterface s ∈ t := by
  obtain ⟨e, he, hs⟩ := List.mem_filterMap.1 h
  cases e <;> simp [Event.declaredInterface?] at hs
  subst hs
  exact he

theorem declareEdge_mem (t : List Event) (s : Edge) (h : s ∈ declaredEdges t) :
    Event.declareEdge s ∈ t := by
  obtain ⟨e, he, hs⟩ := List.mem_filterMap.1 h
  cases e <;> simp [Event.declaredEdge?] at hs
  subst hs
  exact he

theorem declareFunction_mem (t : List Event) (s : Function) (h : s ∈ declaredFunctions t) :
    Event.declareFunction s ∈ t := by
  obtain ⟨e, he, hs⟩ := List.mem_filterMap.1 h
  cases e <;> simp [Event.declaredFunction?] at hs
  subst hs
  exact he

theorem pairwise_rank_phaseCallsOf (program : Program) :
    (phaseCallsOf program).Pairwise (fun a b => a.phaseRank ≤ b.phaseRank) :=
  pairwise_rank_phases program (hasMain program)

/-- In the translator calls of a program, the translate call of a definition comes
after the declare call of the same definition. -/
theorem declare_before_translate (program : Program) (pre post : List Event) :
    (∀ s, phaseCallsOf program = pre ++ .translateStruct s :: post → .declareStruct s ∈ pre) ∧
    (∀ s, phaseCallsOf program = pre ++ .translateInterface s :: post →
      .declareInterface s ∈ pre) ∧
    (∀ s, phaseCallsOf program = pre ++ .translateEdge s :: post → .declareEdge s ∈ pre) ∧
    (∀ s, phaseCallsOf program = pre ++ .translateFunction s :: post →
      .declareFunction s ∈ pre) := by
  have hp := pairwise_rank_phaseCallsOf program
  refine ⟨?_, ?_, ?_, ?_⟩
  · intro s hs
    have hmem : s ∈ translatedStructs (phaseCallsOf program) := by
      rw [hs]
      exact List.mem_filterMap.2 ⟨Event.translateStruct s, by simp, rfl⟩
    rw [translatedStructs_phaseCallsOf, ← declaredStructs_phaseCallsOf] at hmem
    have hd := declareStruct_mem _ s hmem
    rw [hs] at hd hp
    exact mem_before_of_rank_lt pre post _ _ hp hd (by simp [Event.phaseRank])
  · intro s hs
    have hmem : s ∈ translatedInterfaces (phaseCallsOf program) := by
      rw [hs]
      exact List.mem_filterMap.2 ⟨Event.translateInterface s, by simp, rfl⟩
    rw [translatedInterfaces_phaseCallsOf, ← declaredInterfaces_phaseCallsOf] at hmem
    have hd := declareInterface_mem _ s hmem
    rw [hs] at hd hp
    exact mem_before_of_rank_lt pre post _ _ hp hd (by simp [Event.phaseRank])
  · intro s hs
    have hmem : s ∈ translatedEdges (phaseCallsOf program) := by
      rw [hs]
      exact List.mem_filterMap.2 ⟨Event.translateEdge s, by simp, rfl⟩
    rw [translatedEdges_phaseCallsOf] at hmem
    have hmem2 : s ∈ declaredEdges (phaseCallsOf program) := by
      rw [declaredEdges_phaseCallsOf]
      cases hm : hasMain program
      · simp [hm] at hmem
      · simpa [hm] using hmem
    have hd := declareEdge_mem _ s hmem2
    rw [hs] at hd hp
    exact mem_before_of_rank_lt pre post _ _ hp hd (by simp [Event.phaseRank])
  · intro s hs
    have hmem : s ∈ translatedFunctions (phaseCallsOf program) := by
      rw [hs]
      exact List.mem_filterMap.2 ⟨Event.translateFunction s, by simp, rfl⟩
    rw [translatedFunctions_phaseCallsOf] at hmem
    have hmem2 : s ∈ declaredFunctions (phaseCallsOf program) := by
      rw [declaredFunctions_phaseCallsOf]
      cases hm : hasMain program
      · simp [hm] at hmem
      · simpa [hm] using hmem
    have hd := declareFunction_mem _ s hmem2
    rw [hs] at hd hp
    exact mem_before_of_rank_lt pre post _ _ hp hd (by simp [Event.phaseRank])

theorem calls_issued (env : Env) (filename : String) (w : World) (program : Program)
    (h : env.readProgram filename = some program) :
    declaredStructs (issued w (compileValeCode env filename w)) =
      program.structs.map Prod.snd ∧
    translatedStructs (issued w (compileValeCode env filename w)) =
      program.structs.map Prod.snd ∧
    declaredInterfaces (issued w (compileValeCode env filename w)) =
      program.interfaces.map Prod.snd ∧
    translatedInterfaces (issued w (compileValeCode env filename w)) =
      program.interfaces.map Prod.snd ∧
    declaredEdges (issued w (compileValeCode env filename w)) = allEdges program ∧
    translatedEdges (issued w (compileValeCode env filename w)) =
      (if hasMain program then allEdges program else []) ∧
    declaredFunctions (issued w (compileValeCode env filename w)) =
      program.functions.map Prod.snd ∧
    translatedFunctions (issued w (compileValeCode env filename w)) =
      (if hasMain program then program.functions.map Prod.snd else []) := by
  refine ⟨?_, ?_, ?_, ?_, ?_, ?_, ?_, ?_⟩
  · rw [← declaredStructs_phaseCallsOf]
    exact projection_issued _
      (fun e he => by cases e <;> simp_all [Event.isPhaseCall, Event.declaredStruct?])
      env filename w program h
  · rw [← translatedStructs_phaseCallsOf]
    exact projection_issued _
      (fun e he => by cases e <;> simp_all [Event.isPhaseCall, Event.translatedStruct?])
      env filename w program h
  · rw [← declaredInterfaces_phaseCallsOf]
    exact projection_issued _
      (fun e he => by cases e <;> simp_all [Event.isPhaseCall, Event.declaredInterface?])
      env filename w program h
  · rw [← translatedInterfaces_phaseCallsOf]
    exact projection_issued _
      (fun e he => by cases e <;> simp_all [Event.isPhaseCall, Event.translatedInterface?])
      env filename w program h
  · rw [← declaredEdges_phaseCallsOf]
    exact projection_issued _
      (fun e he => by cases e <;> simp_all [Event.isPhaseCall, Event.declaredEdge?])
      env filename w program h
  · rw [← translatedEdges_phaseCallsOf]
    exact projection_issued _
      (fun e he => by cases e <;> simp_all [Event.isPhaseCall, Event.translatedEdge?])
      env filename w program h
  · rw [← declaredFunctions_phaseCallsOf]
    exact projection_issued _
      (fun e he => by cases e <;> simp_all [Event.isPhaseCall, Event.declaredFunction?])
      env filename w program h
  · rw [← translatedFunctions_phaseCallsOf]
    exact projection_issued _
      (fun e he => by cases e <;> simp_all [Event.isPhaseCall, Event.translatedFunction?])
      env filename w program h

/-! ## Theorems -/

/-- C1 (as stated, refuted): for the program whose only function is not `main`, the
translator calls issued by `compileValeCode` are just the declaration of that
function; the translate-function call of the stated order is never issued. -/
theorem compileValeCode_phase_order_without_main :
    phaseCalls (issued exampleWorld
        (compileValeCode (exampleEnv (some noMainProgram)) "point.vast" exampleWorld)) =
      [.declareFunction areaFunction] ∧
    phaseOrder noMainProgram =
      [.declareFunction areaFunction, .translateFunction areaFunction] ∧
    phaseCalls (issued exampleWorld
        (compileValeCode (exampleEnv (some noMainProgram)) "point.vast" exampleWorld)) ≠
      phaseOrder noMainProgram := by
  have h := compileValeCode_phaseCalls (exampleEnv (some noMainProgram)) "point.vast"
    exampleWorld noMainProgram rfl
  have hm : hasMain noMainProgram = false := by decide
  rw [h, hm]
  simp [phaseOrder, declareCalls, translateCalls, noMainProgram]

/-- C1 (amended): for every program the loader returns, the translator calls issued
by `compileValeCode` are declareStruct for all structs, declareInterface for all
interfaces, translateStruct for all structs, translateInterface for all interfaces,
declareEdge for every edge of every struct, declareFunction for all functions, and
then, when the program has a function named `F("main")`, translateEdge for every edge
of every struct and translateFunction for all functions; without such a function the
calls stop after the last declareFunction. In both cases the calls respect the phase
order: no call of an earlier phase comes after a call of a later phase. -/
theorem compileValeCode_phase_order (env : Env) (filename : String) (w : World)
    (program : Program) (h : env.readProgram filename = some program) :
    phaseCalls (issued w (compileValeCode env filename w)) =
      declareCalls program ++ (if hasMain program then translateCalls program else []) ∧
    (hasMain program = true →
      phaseCalls (issued w (compileValeCode env filename w)) = phaseOrder program) ∧
    (phaseCalls (issued w (compileValeCode env filename w))).Pairwise
      (fun a b => a.phaseRank ≤ b.phaseRank) := by
  have hp := compileValeCode_phaseCalls env filename w program h
  refine ⟨hp, ?_, ?_⟩
  · intro hm
    rw [hp, hm]
    rfl
  · rw [hp]
    exact pairwise_rank_phases program (hasMain program)

theorem compileValeCode_phase_order_witness :
    (exampleEnv (some pointProgram)).readProgram "point.vast" = some pointProgram ∧
    hasMain pointProgram = true ∧
    phaseCalls (issued exampleWorld
        (compileValeCode (exampleEnv (some pointProgram)) "point.vast" exampleWorld)) =
      phaseOrder pointProgram :=
  ⟨rfl, by decide,
    (compileValeCode_phase_order (exampleEnv (some pointProgram)) "point.vast" exampleWorld
      pointProgram rfl).2.1 (by decide)⟩

/-- C2: for every program with a function named `F("main")`, the first call of
`compileValeCode` adds the entry function `main` of type `(int64, int8**) -> int64`,
and the instructions built in the run are, in order and all in the block of that
entry function: the call of the program's main with no arguments, the load of the
live-heap-object counter, the call `__vassertI64Eq(0, loaded value)`, the call of
`__getNumWrcs`, the call `__vassertI64Eq(0, that count)`, and the return of the result
of the call of main. -/
theorem compileValeCode_entry_function (env : Env) (filename : String) (w : World)
    (program : Program) (h : env.readProgram filename = some program)
    (hm : hasMain program = true) :
    ∃ f, (∃ name, (name, f) ∈ program.functions) ∧ f.prototype.name.name = "F(\"main\")" ∧
      (issued w (compileValeCode env filename w)).head? =
        some (.LLVMAddFunction w.globalState.mod "main"
          (.function .int64 [.int64, .pointer (.pointer .int8 0) 0] false)) ∧
      (entryBlock w.globalState.mod).parent =
        .function w.globalState.mod "main"
          (.function .int64 [.int64, .pointer (.pointer .int8 0) 0] false) ∧
      builds (issued w (compileValeCode env filename w)) =
        [ ({ block := entryBlock w.globalState.mod }, .call (.declared f) [] "valeMainCall"),
          ({ block := entryBlock w.globalState.mod },
            .load (.global w.globalState.mod "__liveHeapObjCounter" .int64) "numLiveObjs"),
          ({ block := entryBlock w.globalState.mod },
            .call (.function w.globalState.mod "__vassertI64Eq"
                (.function .void [.int64, .int64] false))
              [.constInt .int64 0 false,
                .load (.global w.globalState.mod "__liveHeapObjCounter" .int64) "numLiveObjs"]
              ""),
          ({ block := entryBlock w.globalState.mod },
            .call (.function w.globalState.mod "__getNumWrcs" (.function .int64 [] false)) []
              "numWrcs"),
          ({ block := entryBlock w.globalState.mod },
            .call (.function w.globalState.mod "__vassertI64Eq"
                (.function .void [.int64, .int64] false))
              [.constInt .int64 0 false,
                .call (.function w.globalState.mod "__getNumWrcs" (.function .int64 [] false))
                  [] "numWrcs"]
              ""),
          ({ block := entryBlock w.globalState.mod },
            .ret (.call (.declared f) [] "valeMainCall")) ] := by
  obtain ⟨f, hf, hn, hl⟩ := lastMain_of_hasMain program hm
  refine ⟨f, hf, hn, ?_, rfl, ?_⟩
  · rw [(compileValeCode_issued_main env filename w program _ h hl).2]
    rfl
  · rw [compileValeCode_builds env filename w program _ h hl]
    rfl

theorem compileValeCode_entry_function_witness :
    (exampleEnv (some pointProgram)).readProgram "point.vast" = some pointProgram ∧
    hasMain pointProgram = true ∧
    ∃ f, (∃ name, (name, f) ∈ pointProgram.functions) ∧
      f.prototype.name.name = "F(\"main\")" ∧
      (issued exampleWorld
        (compileValeCode (exampleEnv (some pointProgram)) "point.vast" exampleWorld)).head? =
        some (.LLVMAddFunction exampleModule "main"
          (.function .int64 [.int64, .pointer (.pointer .int8 0) 0] false)) := by
  refine ⟨rfl, by decide, ?_⟩
  obtain ⟨f, hf, hn, hh, _⟩ :=
    compileValeCode_entry_function (exampleEnv (some pointProgram)) "point.vast" exampleWorld
      pointProgram rfl (by decide)
  exact ⟨f, hf, hn, hh⟩

/-- C3: from every initial state `initInternalStructs` returns (none of the three
assertions of the non-weakable control block fails); the type-tag, object-id and
strong-refcount members sit at indices 0, 1, 2, the non-weakable layout is exactly
`[i8*, i64, i64]`, and the weakable layout is that same list followed by one more
`i64` member, the weak-cell index, at index 3. -/
theorem initInternalStructs_layouts (env : Env) (w : World) :
    (initInternalStructs env w).halted = none ∧
      (initInternalStructs env w).world.globalState.controlBlockTypeStrIndex = 0 ∧
      (initInternalStructs env w).world.globalState.controlBlockObjIdIndex = 1 ∧
      (initInternalStructs env w).world.globalState.controlBlockRcMemberIndex = 2 ∧
      (initInternalStructs env w).world.globalState.controlBlockWrciMemberIndex = 3 ∧
      (initInternalStructs env w).world.globalState.nonWeakableControlBlockStructL.structElementTypes =
        some [.pointer .int8 0, .int64, .int64] ∧
      (initInternalStructs env w).world.globalState.weakableControlBlockStructL.structElementTypes =
        some ([.pointer .int8 0, .int64, .int64] ++ [.int64]) := by
  simp [initInternalStructs, Res.halted, Res.world, LLVMStructSetBody, LLVMStructCreateNamed,
    LLVMTypeRef.structElementTypes, LLVMPointerType, LLVMInt8Type, LLVMInt64Type]

/-- C4: for every program the loader returns, `compileValeCode` gets past the
assertion `mainL != nullptr` (and then runs to its end) exactly when some function of
the program has the prototype name `F("main")`. When none has, the assertion fails
right after the declaration of all functions: the calls issued are the set-up calls
followed by the declaration phases, and among them there is no translateEdge call, no
translateFunction call and no instruction of the entry function. -/
theorem compileValeCode_main_assertion (env : Env) (filename : String) (w : World)
    (program : Program) (h : env.readProgram filename = some program) :
    ((compileValeCode env filename w).halted = none ↔ hasMain program = true) ∧
    (hasMain program = true →
      ∃ rest, issued w (compileValeCode env filename w) =
        setupCalls w.globalState.mod ++ (declareCalls program ++
          (translateCalls program ++ rest))) ∧
    (hasMain program = false →
      (compileValeCode env filename w).halted = some (.assertFailed "mainL != nullptr") ∧
      issued w (compileValeCode env filename w) =
        setupCalls w.globalState.mod ++ declareCalls program ∧
      ∀ e ∈ issued w (compileValeCode env filename w),
        (∀ x, e ≠ .translateEdge x) ∧ (∀ x, e ≠ .translateFunction x) ∧
          (∀ b i, e ≠ .LLVMBuild b i)) := by
  have hno : hasMain program = false →
      (compileValeCode env filename w).halted = some (.assertFailed "mainL != nullptr") ∧
      issued w (compileValeCode env filename w) =
        setupCalls w.globalState.mod ++ declareCalls program := fun hm =>
    compileValeCode_issued_noMain env filename w program h (lastMain_of_not_hasMain program hm)
  refine ⟨?_, ?_, ?_⟩
  · constructor
    · intro hh
      by_contra hm
      have := (hno (by simpa using hm)).1
      rw [hh] at this
      cases this
    · intro hm
      obtain ⟨f, _, _, hl⟩ := lastMain_of_hasMain program hm
      exact (compileValeCode_issued_main env filename w program _ h hl).1
  · intro hm
    obtain ⟨f, _, _, hl⟩ := lastMain_of_hasMain program hm
    exact ⟨_, (compileValeCode_issued_main env filename w program _ h hl).2⟩
  · intro hm
    refine ⟨(hno hm).1, (hno hm).2, ?_⟩
    rw [(hno hm).2]
    intro e he
    rcases List.mem_append.1 he with hs | hd
    · have h1 : e.isPhaseCall = false := by
        have := phaseCalls_setupCalls w.globalState.mod
        simp only [phaseCalls, List.filter_eq_nil_iff] at this
        simpa using this e hs
      have h2 : e.build? = none := by
        have := builds_setupCalls w.globalState.mod
        simp only [builds, List.filterMap_eq_nil_iff] at this
        exact this e hs
      refine ⟨fun x hx => ?_, fun x hx => ?_, fun b i hx => ?_⟩
      · subst hx
        simp [Event.isPhaseCall] at h1
      · subst hx
        simp [Event.isPhaseCall] at h1
      · subst hx
        simp [Event.build?] at h2
    · have h5 := (rankedUpTo_declareCalls program).2 e hd
      refine ⟨fun x hx => ?_, fun x hx => ?_, fun b i hx => ?_⟩ <;> subst hx <;>
        simp [Event.phaseRank] at h5

theorem compileValeCode_main_assertion_witness :
    (exampleEnv (some noMainProgram)).readProgram "point.vast" = some noMainProgram ∧
    hasMain noMainProgram = false ∧
    (compileValeCode (exampleEnv (some noMainProgram)) "point.vast" exampleWorld).halted =
      some (.assertFailed "mainL != nullptr") :=
  ⟨rfl, by decide,
    ((compileValeCode_main_assertion (exampleEnv (some noMainProgram)) "point.vast"
      exampleWorld noMainProgram rfl).2.2 (by decide)).1⟩

/-- C5 (the code at the failing input): with the IR dump, the verification and the
assembly output all disabled, `generateModule` still writes the line
"Printing file out/point.opt.ll" to the console, from the step that serializes the
optimized IR. -/
theorem generateModule_prints_when_dump_disabled :
    readyWorld.opt.print_llvmir = false ∧
    consoleOutput (issued readyWorld (generateModule (exampleEnv (some pointProgram)) readyWorld))
      = ["Printing file out/point.opt.ll\n"] := by
  refine ⟨rfl, ?_⟩
  rw [(generateModule_issued (exampleEnv (some pointProgram)) readyWorld pointProgram
    (.declared mainFunction) rfl lastMain_pointProgram rfl).2]
  rfl

/-- C6 (as stated, refuted): in the table built by `initInternalExterns` the census
contains intrinsic `__vcensusContains` is declared with return type `int64`, not with
the 1-bit boolean type. -/
theorem censusContains_not_bool :
    ((addedFunctions (issued exampleWorld (initInternalExterns exampleWorld))).lookup
        "__vcensusContains").bind LLVMTypeRef.getReturnType = some .int64 ∧
    ((addedFunctions (issued exampleWorld (initInternalExterns exampleWorld))).lookup
        "__vcensusContains").bind LLVMTypeRef.getReturnType ≠ some .int1 := by
  rw [(initInternalExterns_table exampleWorld).2]
  simp [internalExterns, List.lookup, LLVMTypeRef.getReturnType]

/-- C6 (amended): in the table built by `initInternalExterns`, from every state, the
WRC is-live intrinsic `__wrcIsLive` is declared as taking one `int64` and returning
the 1-bit boolean type, and the census contains intrinsic `__vcensusContains` is
declared as taking one pointer and returning `int64`. -/
theorem initInternalExterns_predicates (w : World) :
    (addedFunctions (issued w (initInternalExterns w))).lookup "__wrcIsLive" =
      some (.function .int1 [.int64] false) ∧
    (addedFunctions (issued w (initInternalExterns w))).lookup "__vcensusContains" =
      some (.function .int64 [.pointer .void 0] false) := by
  rw [(initInternalExterns_table w).2]
  simp [internalExterns, List.lookup]

/-- C7: in a run of `compileValeCode` on a loaded program, the functions the driver
adds to the module are `main` followed by the 25 names that `initInternalExterns`
passes to `addFunction`; these 26 names are pairwise distinct, so each is declared
once and none of the intrinsic names is `main`. -/
theorem compileValeCode_declared_names (env : Env) (filename : String) (w : World)
    (program : Program) (h : env.readProgram filename = some program) :
    (addedFunctions (issued w (compileValeCode env filename w))).map Prod.fst =
      "main" :: internalExternNames ∧
    (∀ w1 : World, (addedFunctions (issued w1 (initInternalExterns w1))).map Prod.fst =
      internalExternNames) ∧
    ((addedFunctions (issued w (compileValeCode env filename w))).map Prod.fst).Nodup ∧
    (∀ name ∈ (addedFunctions (issued w (compileValeCode env filename w))).map Prod.fst,
      ((addedFunctions (issued w (compileValeCode env filename w))).map Prod.fst).count name
        = 1) ∧
    "main" ∉ internalExternNames := by
  have hn : (addedFunctions (issued w (compileValeCode env filename w))).map Prod.fst =
      "main" :: internalExternNames := by
    rw [compileValeCode_addedFunctions env filename w program h, List.map_cons,
      internalExterns_names]
  refine ⟨hn, ?_, ?_, ?_, ?_⟩
  · intro w1
    rw [(initInternalExterns_table w1).2, internalExterns_names]
  · rw [hn]
    exact nodup_names
  · intro name hname
    rw [hn] at hname ⊢
    exact List.count_eq_one_of_mem nodup_names hname
  · exact (List.nodup_cons.1 nodup_names).1

theorem compileValeCode_declared_names_witness :
    (exampleEnv (some pointProgram)).readProgram "point.vast" = some pointProgram ∧
    (addedFunctions (issued exampleWorld
      (compileValeCode (exampleEnv (some pointProgram)) "point.vast" exampleWorld))).map
        Prod.fst = "main" :: internalExternNames :=
  ⟨rfl, (compileValeCode_declared_names (exampleEnv (some pointProgram)) "point.vast"
    exampleWorld pointProgram rfl).1⟩

/-- C8: for every configuration and every loaded program with a `main`, when the
verification step lets the process go on, the passes `generateModule` adds to the
pass manager are promote-memory-to-register, instruction combining, reassociate, GVN
and CFG simplification, followed by function inlining exactly when `release` is set
(no other option enters the list); the pass manager is run exactly once; and the
pass-manager calls come right after the calls of the verification step and right
before the calls of the step that serializes the optimized IR, with no pass-manager
call anywhere else in the run. -/
theorem generateModule_passes (env : Env) (w : World) (program : Program)
    (hp : env.readProgram w.opt.srcpath = some program) (hm : hasMain program = true)
    (hv : verifyPasses env w.opt = true) :
    addedPasses (issued w (generateModule env w)) =
      [.PromoteMemoryToRegister, .InstructionCombining, .Reassociate, .GVN,
        .CFGSimplification] ++ (if w.opt.release then [.FunctionInlining] else []) ∧
    (issued w (generateModule env w)).countP Event.isRunPassManager = 1 ∧
    ∃ pre post,
      issued w (generateModule env w) =
        (pre ++ verifyIRCalls env w.opt (createdModule w.opt)) ++
          ([.LLVMCreatePassManager] ++
            (([Pass.PromoteMemoryToRegister, Pass.InstructionCombining, Pass.Reassociate,
              Pass.GVN, Pass.CFGSimplification] ++
                (if w.opt.release then [Pass.FunctionInlining] else [])).map .LLVMAddPass) ++
            [.LLVMRunPassManager (createdModule w.opt), .LLVMDisposePassManager]) ++
          (serializeOptimizedIRCalls env w.opt (createdModule w.opt) ++ post) ∧
      (∀ e ∈ pre ++ verifyIRCalls env w.opt (createdModule w.opt), e.isPassManagerCall = false) ∧
      (∀ e ∈ serializeOptimizedIRCalls env w.opt (createdModule w.opt) ++ post,
        e.isPassManagerCall = false) := by
  obtain ⟨f, _, _, hl⟩ := lastMain_of_hasMain program hm
  have hg := (generateModule_issued env w program _ hp hl hv).2
  have hpre : ∀ e ∈ (createModuleCalls w.opt program (.declared f) ++
      serializeIRCalls env w.opt (createdModule w.opt)) ++
        verifyIRCalls env w.opt (createdModule w.opt), e.isPassManagerCall = false := by
    intro e he
    rcases List.mem_append.1 he with h | h
    · rcases List.mem_append.1 h with h | h
      · exact noPassManager_createModuleCalls _ _ _ e h
      · exact noPassManager_serializeIRCalls _ _ _ e h
    · exact noPassManager_verifyIRCalls _ _ _ e h
  have hpost : ∀ e ∈ serializeOptimizedIRCalls env w.opt (createdModule w.opt) ++
      (transformIRCalls env w.opt (createdModule w.opt) w.globalState.machine ++
        [.LLVMDisposeModule (createdModule w.opt)]), e.isPassManagerCall = false := by
    intro e he
    rcases List.mem_append.1 he with h | h
    · exact noPassManager_serializeOptimizedIRCalls _ _ _ e h
    · rcases List.mem_append.1 h with h | h
      · exact noPassManager_transformIRCalls _ _ _ _ e h
      · simp only [List.mem_singleton] at h
        subst h
        rfl
  have hshape : issued w (generateModule env w) =
      ((createModuleCalls w.opt program (.declared f) ++
        serializeIRCalls env w.opt (createdModule w.opt)) ++
          verifyIRCalls env w.opt (createdModule w.opt)) ++
        optimizeIRCalls w.opt (createdModule w.opt) ++
        (serializeOptimizedIRCalls env w.opt (createdModule w.opt) ++
          (transformIRCalls env w.opt (createdModule w.opt) w.globalState.machine ++
            [.LLVMDisposeModule (createdModule w.opt)])) := by
    rw [hg, backendCalls]
    simp only [List.append_assoc]
  refine ⟨?_, ?_, _, _, hshape, hpre, hpost⟩
  · rw [hshape, addedPasses_append, addedPasses_append, addedPasses_of_noPassManager _ hpre,
      addedPasses_of_noPassManager _ hpost, addedPasses_optimizeIRCalls]
    simp [passList]
  · rw [hshape, List.countP_append, List.countP_append, countRun_of_noPassManager _ hpre,
      countRun_of_noPassManager _ hpost, countRun_optimizeIRCalls]

theorem generateModule_passes_witness :
    (exampleEnv (some pointProgram)).readProgram readyWorld.opt.srcpath = some pointProgram ∧
    hasMain pointProgram = true ∧
    verifyPasses (exampleEnv (some pointProgram)) readyWorld.opt = true ∧
    addedPasses (issued readyWorld (generateModule (exampleEnv (some pointProgram)) readyWorld))
      = [.PromoteMemoryToRegister, .InstructionCombining, .Reassociate, .GVN,
          .CFGSimplification] ++ (if readyWorld.opt.release then [.FunctionInlining] else []) :=
  ⟨rfl, by decide, rfl,
    (generateModule_passes (exampleEnv (some pointProgram)) readyWorld pointProgram rfl
      (by decide) rfl).1⟩

/-- C9: a failed file emission stops nothing. For every outcome of the two emissions,
`generateOutput` called with an assembly path returns, and its calls are the target
and data-layout set-up, the assembly emission (followed by the log line and the
disposal of the message when it failed), and then the object emission (followed by its
log line and disposal when it failed). And when `generateModule` gets to its last
step with a machine, it returns, the object emission is among its calls, and its last
call disposes the module. -/
theorem generateOutput_continues_after_failure (env : Env) (w : World) (program : Program)
    (machine : LLVMTargetMachineRef)
    (hp : env.readProgram w.opt.srcpath = some program) (hm : hasMain program = true)
    (hv : verifyPasses env w.opt = true) (hmach : w.globalState.machine = some machine) :
    (∀ (objpath asmpath : String) (mod : LLVMModuleRef) (triple : Option String)
        (m : LLVMTargetMachineRef) (w1 : World),
      (generateOutput env objpath (some asmpath) mod triple m w1).halted = none ∧
      issued w1 (generateOutput env objpath (some asmpath) mod triple m w1) =
        [.LLVMSetTarget mod triple, .LLVMSetDataLayout mod m, .LLVMDisposeMessage] ++
          (.LLVMTargetMachineEmitToFile m mod (strncpy asmpath 1024) .LLVMAssemblyFile ::
            (match env.emitAsm with
              | some _ =>
                [.cerr ("Could not emit asm file: " ++ strncpy asmpath 1024 ++ "\n"),
                  .LLVMDisposeMessage]
              | none => [])) ++
          (.LLVMTargetMachineEmitToFile m mod (strncpy objpath 1024) .LLVMObjectFile ::
            (match env.emitObj with
              | some err =>
                [.cerr ("Could not emit obj file to path " ++ strncpy objpath 1024 ++ " "
                    ++ err ++ "\n"),
                  .LLVMDisposeMessage]
              | none => []))) ∧
    (generateModule env w).halted = none ∧
    .LLVMTargetMachineEmitToFile machine (createdModule w.opt)
        (strncpy (env.fileMakePath w.opt.output w.opt.srcNameNoExt
          (if w.opt.wasm then "wasm" else objext)) 1024)
        .LLVMObjectFile ∈ issued w (generateModule env w) ∧
    (issued w (generateModule env w)).getLast? =
      some (.LLVMDisposeModule (createdModule w.opt)) := by
  obtain ⟨f, _, _, hl⟩ := lastMain_of_hasMain program hm
  have hg := generateModule_issued env w program _ hp hl hv
  refine ⟨?_, hg.1, ?_, ?_⟩
  · intro objpath asmpath mod triple m w1
    rw [generateOutput_run]
    refine ⟨rfl, ?_⟩
    rw [issued_eq w1 _ _ rfl]
    simp [generateOutputCalls, emitAsmCalls, emitObjCalls]
  · rw [hg.2, backendCalls, hmach, transformIRCalls, generateOutputCalls, emitObjCalls]
    simp
  · rw [hg.2, backendCalls]
    simp

theorem generateOutput_continues_after_failure_witness :
    emissionFailingEnv.readProgram asmWorld.opt.srcpath = some pointProgram ∧
    hasMain pointProgram = true ∧
    verifyPasses emissionFailingEnv asmWorld.opt = true ∧
    asmWorld.globalState.machine = some exampleMachine ∧
    emissionFailingEnv.emitAsm = some "cannot open file" ∧
    (generateModule emissionFailingEnv asmWorld).halted = none :=
  ⟨rfl, by decide, rfl, rfl, rfl,
    (generateOutput_continues_after_failure emissionFailingEnv asmWorld pointProgram
      exampleMachine rfl (by decide) rfl rfl).2.1⟩

/-- C10: when the target lookup or the creation of the target machine fails, `setup`
ends the process with the exit code `LlvmSetupFailed`, which is not the code `BadOpts`;
and a run of `main` that gets as far as `setup` ends with that code too, after the
X86 initialisation calls and the diagnostic only, so no call of `generateModule` is
issued. -/
theorem main_setup_failure (env : Env) (argv : List String) (w : World) (msg : String)
    (hok : 0 < (env.valeOptSet w.opt argv).1)
    (hargs : 2 ≤ (env.valeOptSet w.opt argv).2.2.length)
    (hf : setupFailure env (mainOptions env w.opt argv) = some msg) :
    (∀ (w1 : World) (msg1 : String), setupFailure env w1.opt = some msg1 →
      (setup env w1).halted = some (.exit .LlvmSetupFailed)) ∧
    (main env argv w).halted = some (.exit .LlvmSetupFailed) ∧
    (main env argv w).halted ≠ some (.exit .BadOpts) ∧
    ExitCode.LlvmSetupFailed ≠ ExitCode.BadOpts ∧
    issued w (main env argv w) =
      initializeX86Calls ++ [.errorExit .LlvmSetupFailed msg] ∧
    (∀ moduleID, .LLVMModuleCreateWithNameInContext moduleID ∉ issued w (main env argv w)) := by
  have hs := setup_failure env { w with opt := mainOptions env w.opt argv } msg hf
  have hmain : (main env argv w).halted = some (.exit .LlvmSetupFailed) ∧
      (main env argv w).trace =
        w.trace ++ (initializeX86Calls ++ [.errorExit .LlvmSetupFailed msg]) := by
    rw [main_reaches_setup env argv w hok hargs]
    cases hc : setup env { w with opt := mainOptions env w.opt argv } with
    | ok a w1 => simp [hc, Res.halted] at hs
    | halt e w1 =>
      simp only [hc, Res.halted, Res.trace, Res.world, Option.some.injEq] at hs
      simp [hc, Res.halted, Res.trace, Res.world, hs.1, hs.2]
  have hi := issued_eq w _ _ hmain.2
  refine ⟨fun w1 msg1 h1 => (setup_failure env w1 msg1 h1).1, hmain.1, ?_, by decide, hi, ?_⟩
  · rw [hmain.1]
    decide
  · intro moduleID
    rw [hi]
    simp [initializeX86Calls]

theorem main_setup_failure_witness :
    0 < (lookupFailingEnv.valeOptSet exampleWorld.opt ["valec", "point.vast"]).1 ∧
    2 ≤ (lookupFailingEnv.valeOptSet exampleWorld.opt ["valec", "point.vast"]).2.2.length ∧
    setupFailure lookupFailingEnv
        (mainOptions lookupFailingEnv exampleWorld.opt ["valec", "point.vast"]) =
      some ("Could not create target: " ++ "no targets are registered") ∧
    (main lookupFailingEnv ["valec", "point.vast"] exampleWorld).halted =
      some (.exit .LlvmSetupFailed) :=
  ⟨by decide, by decide, rfl,
    (main_setup_failure lookupFailingEnv ["valec", "point.vast"] exampleWorld
      ("Could not create target: " ++ "no targets are registered") (by decide) (by decide)
      rfl).2.1⟩

/-- C11 (as stated, refuted): for the program whose only function `area` is not `main`,
`compileValeCode` declares that function but never calls `translateFunction` for it:
the number of `translateFunction` calls for it is 0, not 1. -/
theorem compileValeCode_translate_skipped_without_main :
    areaFunction ∈ noMainProgram.functions.map Prod.snd ∧
    (declaredFunctions (issued exampleWorld
      (compileValeCode (exampleEnv (some noMainProgram)) "point.vast" exampleWorld))).count
        areaFunction = 1 ∧
    (translatedFunctions (issued exampleWorld
      (compileValeCode (exampleEnv (some noMainProgram)) "point.vast" exampleWorld))).count
        areaFunction = 0 ∧
    (translatedFunctions (issued exampleWorld
      (compileValeCode (exampleEnv (some noMainProgram)) "point.vast" exampleWorld))).count
        areaFunction ≠ 1 := by
  have hc := calls_issued (exampleEnv (some noMainProgram)) "point.vast" exampleWorld
    noMainProgram rfl
  have hm : hasMain noMainProgram = false := by decide
  rw [hc.2.2.2.2.2.2.1, hc.2.2.2.2.2.2.2, hm]
  decide

/-- C11 (amended): for every program the loader returns, `compileValeCode` calls
declareStruct and translateStruct once for each entry of `program->structs`,
declareInterface and translateInterface once for each entry of `program->interfaces`,
declareEdge once for each edge of each struct and declareFunction once for each entry
of `program->functions`, each in iteration order; translateEdge and translateFunction
are called once per edge and once per function when the program has a function named
`F("main")`, and not at all otherwise. So when the definitions of a map are pairwise
distinct, every one of them is the argument of exactly one declare call and (for edges
and functions: in a program with a `main`) of exactly one translate call. In every run
the translate call of a definition comes after the declare call of that definition. -/
theorem compileValeCode_calls_once (env : Env) (filename : String) (w : World)
    (program : Program) (h : env.readProgram filename = some program) :
    (declaredStructs (issued w (compileValeCode env filename w)) =
        program.structs.map Prod.snd ∧
      translatedStructs (issued w (compileValeCode env filename w)) =
        program.structs.map Prod.snd ∧
      declaredInterfaces (issued w (compileValeCode env filename w)) =
        program.interfaces.map Prod.snd ∧
      translatedInterfaces (issued w (compileValeCode env filename w)) =
        program.interfaces.map Prod.snd ∧
      declaredEdges (issued w (compileValeCode env filename w)) = allEdges program ∧
      translatedEdges (issued w (compileValeCode env filename w)) =
        (if hasMain program then allEdges program else []) ∧
      declaredFunctions (issued w (compileValeCode env filename w)) =
        program.functions.map Prod.snd ∧
      translatedFunctions (issued w (compileValeCode env filename w)) =
        (if hasMain program then program.functions.map Prod.snd else [])) ∧
    ((program.structs.map Prod.snd).Nodup → ∀ p ∈ program.structs,
      (declaredStructs (issued w (compileValeCode env filename w))).count p.2 = 1 ∧
      (translatedStructs (issued w (compileValeCode env filename w))).count p.2 = 1) ∧
    ((program.interfaces.map Prod.snd).Nodup → ∀ p ∈ program.interfaces,
      (declaredInterfaces (issued w (compileValeCode env filename w))).count p.2 = 1 ∧
      (translatedInterfaces (issued w (compileValeCode env filename w))).count p.2 = 1) ∧
    (hasMain program = true → (allEdges program).Nodup → ∀ e ∈ allEdges program,
      (declaredEdges (issued w (compileValeCode env filename w))).count e = 1 ∧
      (translatedEdges (issued w (compileValeCode env filename w))).count e = 1) ∧
    (hasMain program = true → (program.functions.map Prod.snd).Nodup →
      ∀ p ∈ program.functions,
      (declaredFunctions (issued w (compileValeCode env filename w))).count p.2 = 1 ∧
      (translatedFunctions (issued w (compileValeCode env filename w))).count p.2 = 1) ∧
    (∀ pre post : List Event,
      (∀ s, phaseCalls (issued w (compileValeCode env filename w)) =
          pre ++ .translateStruct s :: post → .declareStruct s ∈ pre) ∧
      (∀ s, phaseCalls (issued w (compileValeCode env filename w)) =
          pre ++ .translateInterface s :: post → .declareInterface s ∈ pre) ∧
      (∀ s, phaseCalls (issued w (compileValeCode env filename w)) =
          pre ++ .translateEdge s :: post → .declareEdge s ∈ pre) ∧
      (∀ s, phaseCalls (issued w (compileValeCode env filename w)) =
          pre ++ .translateFunction s :: post → .declareFunction s ∈ pre)) := by
  have hc := calls_issued env filename w program h
  obtain ⟨h1, h2, h3, h4, h5, h6, h7, h8⟩ := hc
  refine ⟨⟨h1, h2, h3, h4, h5, h6, h7, h8⟩, ?_, ?_, ?_, ?_, ?_⟩
  · intro hn p hp
    have hmem : p.2 ∈ program.structs.map Prod.snd := List.mem_map.2 ⟨p, hp, rfl⟩
    rw [h1, h2]
    exact ⟨List.count_eq_one_of_mem hn hmem, List.count_eq_one_of_mem hn hmem⟩
  · intro hn p hp
    have hmem : p.2 ∈ program.interfaces.map Prod.snd := List.mem_map.2 ⟨p, hp, rfl⟩
    rw [h3, h4]
    exact ⟨List.count_eq_one_of_mem hn hmem, List.count_eq_one_of_mem hn hmem⟩
  · intro hm hn e he
    rw [h5, h6, hm]
    exact ⟨List.count_eq_one_of_mem hn he, List.count_eq_one_of_mem hn he⟩
  · intro hm hn p hp
    have hmem : p.2 ∈ program.functions.map Prod.snd := List.mem_map.2 ⟨p, hp, rfl⟩
    rw [h7, h8, hm]
    exact ⟨List.count_eq_one_of_mem hn hmem, List.count_eq_one_of_mem hn hmem⟩
  · intro pre post
    have hp : phaseCalls (issued w (compileValeCode env filename w)) = phaseCallsOf program :=
      compileValeCode_phaseCalls env filename w program h
    rw [hp]
    exact declare_before_translate program pre post

theorem compileValeCode_calls_once_witness :
    (exampleEnv (some pointProgram)).readProgram "point.vast" = some pointProgram ∧
    hasMain pointProgram = true ∧
    (pointProgram.functions.map Prod.snd).Nodup ∧
    ∀ p ∈ pointProgram.functions,
      (declaredFunctions (issued exampleWorld
        (compileValeCode (exampleEnv (some pointProgram)) "point.vast" exampleWorld))).count
          p.2 = 1 ∧
      (translatedFunctions (issued exampleWorld
        (compileValeCode (exampleEnv (some pointProgram)) "point.vast" exampleWorld))).count
          p.2 = 1 :=
  ⟨rfl, by decide, by decide,
    (compileValeCode_calls_once (exampleEnv (some pointProgram)) "point.vast" exampleWorld
      pointProgram rfl).2.2.2.2.1 (by decide) (by decide)⟩

end Vale
